import Mathlib

/-!
The identity and credential lifecycle of hr-backend.

A shallow embedding of `src/controllers/authControllers.js` (with
`src/services/emailService.js` and `src/models/Token.js`) and theorems about it.

The document store is explicit state (`Store`), each request handler is a
function from the request and the store to an `Outcome`: the new store, the
response object `res` as the handler left it, the message of the `Error` it
threw (if any) and the messages it handed to the mail transporter.

Code that the controllers call but that is not part of the embedded sources
(the password hasher, the signed-token issuer, the mail transporter, the
process environment, the random source, the clock) is a field of `Env`.
-/

namespace HrBackend

/-! ## Values -/

/-- Identifier of a stored document (a driver-generated ObjectId). -/
abbrev ObjectId := Nat

/-- Lowercase hexadecimal digit of a number below sixteen. -/
def hexDigit (n : Nat) : Char :=
  if n < 10 then Char.ofNat (48 + n) else Char.ofNat (87 + n)

/-- Characters of `Buffer.toString('hex')`: two digits per byte, high nibble first. -/
def hexChars : List (Fin 256) → List Char
  | [] => []
  | b :: bs => hexDigit (b.val / 16) :: hexDigit (b.val % 16) :: hexChars bs

/-- Hex encoding of a byte buffer, `buf.toString('hex')`. -/
def toHex (bytes : List (Fin 256)) : String := String.mk (hexChars bytes)

/-- Bytes drawn by `crypto.randomBytes(n)` from the random source `entropy`. -/
def randomBytes (entropy : Nat → Fin 256) (n : Nat) : List (Fin 256) :=
  (List.range n).map entropy

/-- The twelve bytes of an ObjectId, most significant first. -/
def ObjectId.bytes (i : ObjectId) : List (Fin 256) :=
  (List.range 12).map (fun k => Fin.ofNat (i / 256 ^ (11 - k)))

/-- String form of an ObjectId as it appears in a template literal or in JSON:
24 hex digits. -/
def ObjectId.toHexString (i : ObjectId) : String := toHex i.bytes

/-- JavaScript truthiness of an optional string field: an absent field and the
empty string are falsy. -/
def truthy (v : Option String) : Bool :=
  match v with
  | none => false
  | some x => x != ""

/-! ## Data model -/

/-- Modelled from the spec: the User model (`models/Users.js`, required by the
controller, is not among the sources). Fields per the spec's Account: id, name,
email, role (`position`), password hash, `isVerified` (default false) and the two
password-reset fields (default absent). Emails are the values the store holds and
compares; times are milliseconds since the epoch. -/
structure User where
  _id : ObjectId
  name : String
  email : String
  position : String
  password : Option String
  isVerified : Bool
  resetPasswordToken : Option String
  resetPasswordExpire : Option Nat
  deriving DecidableEq, Repr

/-- A document of `models/Token.js`: `userId`, `token`, `createdAt`. -/
structure Token where
  _id : ObjectId
  userId : ObjectId
  token : String
  createdAt : Nat
  deriving DecidableEq, Repr

/-- The document store: the two collections and the id generator. -/
structure Store where
  users : List User
  tokens : List Token
  nextId : ObjectId
  deriving DecidableEq, Repr

/-- Store invariant of the database: `_id` is unique within a collection and
every id in use was produced by the generator. -/
structure Store.WF (s : Store) : Prop where
  usersNodup : (s.users.map (fun u => u._id)).Nodup
  tokensNodup : (s.tokens.map (fun t => t._id)).Nodup
  usersLt : ∀ u ∈ s.users, u._id < s.nextId
  tokensLt : ∀ t ∈ s.tokens, t._id < s.nextId

/-- A message handed to `transporter.sendMail`. -/
structure MailMessage where
  from_ : String
  to_ : String
  subject : String
  text : String
  deriving DecidableEq, Repr

/-- What the controllers use but do not define. `hash` and `verify` are the
credential hasher (the model's pre-save hook and `matchPassword`),
`generateToken` and `generateRefreshToken` the signed-token issuer of
`services/tokenService`, `sendMail` tells whether the transporter delivers a
message, `nodeEnv`, `emailFromName`, `emailFromAddress` are `process.env`
entries, `entropy` is the random source and `now` is `Date.now()`. -/
structure Env where
  hash : String → String
  verify : String → String → Bool
  generateToken : ObjectId → String
  generateRefreshToken : ObjectId → String
  sendMail : MailMessage → Bool
  nodeEnv : Option String
  emailFromName : String
  emailFromAddress : String
  entropy : Nat → Fin 256
  now : Nat

/-! ## Responses -/

/-- A scalar JSON value. -/
inductive JAtom where
  | str (s : String)
  | bool (b : Bool)
  deriving DecidableEq, Repr

/-- A JSON value of a response body: a scalar or an object of scalars. -/
inductive JVal where
  | atom (a : JAtom)
  | obj (fields : List (String × JAtom))
  deriving DecidableEq, Repr

/-- A JSON object: its keys in order with their values. -/
abbrev Json := List (String × JVal)

/-- Options of `res.cookie`. -/
structure CookieOptions where
  httpOnly : Bool := false
  secure : Bool := false
  sameSite : Option String := none
  maxAge : Option Nat := none
  expires : Option Nat := none
  deriving DecidableEq, Repr

/-- One `res.cookie(name, value, options)` call. -/
structure Cookie where
  name : String
  value : String
  options : CookieOptions
  deriving DecidableEq, Repr

/-- The response object: status code (200 until set), cookies set, body sent. -/
structure Res where
  statusCode : Nat := 200
  cookies : List Cookie := []
  body : Option Json := none
  deriving DecidableEq, Repr

/-- Result of running a handler: the store afterwards, the response object, the
message of the `Error` thrown out of the handler (to the error middleware) and
the messages handed to the transporter. -/
structure Outcome where
  store : Store
  res : Res
  error : Option String := none
  mails : List MailMessage := []
  deriving DecidableEq, Repr

/-- `res.status(code); throw new Error(message)` with the store as it is. -/
def fail (s : Store) (code : Nat) (message : String) : Outcome :=
  { store := s, res := { statusCode := code }, error := some message }

/-! ## Model operations -/

/-- `User.findOne({ email })`: the first account with that email. -/
def User.findOne (users : List User) (email : String) : Option User :=
  users.find? (fun u => u.email == email)

/-- `User.findById(id)`. -/
def User.findById (users : List User) (id : ObjectId) : Option User :=
  users.find? (fun u => u._id == id)

/-- Modelled from the spec: `User.create` of the missing User model. The new
account gets a fresh id, the password is stored hashed, `isVerified` is false and
the reset fields are absent. -/
def User.create (env : Env) (s : Store) (name email password position : String) :
    User × Store :=
  let user : User :=
    { _id := s.nextId, name := name, email := email, position := position,
      password := some (env.hash password), isVerified := false,
      resetPasswordToken := none, resetPasswordExpire := none }
  (user, { s with users := s.users ++ [user], nextId := s.nextId + 1 })

/-- `user.save()`: the stored document with the same `_id` becomes `user`. -/
def User.save (s : Store) (user : User) : Store :=
  { s with users := s.users.map (fun u => if u._id = user._id then user else u) }

/-- `user.matchPassword(entered)`: the hasher's check of the entered password
against the stored hash. -/
def User.matchPassword (env : Env) (user : User) (entered : String) : Bool :=
  env.verify entered (user.password.getD "")

/-- `Token.findOne({ userId, token })`: the first record with both values. -/
def Token.findOne (tokens : List Token) (userId : ObjectId) (token : String) :
    Option Token :=
  tokens.find? (fun t => t.userId == userId && t.token == token)

/-- `Token.create({ userId, token })`: `createdAt` defaults to `Date.now`. -/
def Token.create (env : Env) (s : Store) (userId : ObjectId) (token : String) :
    Token × Store :=
  let t : Token := { _id := s.nextId, userId := userId, token := token, createdAt := env.now }
  (t, { s with tokens := s.tokens ++ [t], nextId := s.nextId + 1 })

/-- `token.deleteOne()`: removes the stored document with that `_id`. -/
def Token.deleteOne (s : Store) (t : Token) : Store :=
  { s with tokens := s.tokens.filter (fun x => x._id != t._id) }

/-! ## services/emailService.js -/

/-- Argument of `sendEmail`. -/
structure MailOptions where
  email : String
  subject : String
  message : String
  deriving DecidableEq, Repr

/-- `sendEmail(options)`: the message handed to the transporter and the message
of the error thrown when the transporter fails. -/
def sendEmail (env : Env) (options : MailOptions) : MailMessage × Option String :=
  let message : MailMessage :=
    { from_ := env.emailFromName ++ " <" ++ env.emailFromAddress ++ ">",
      to_ := options.email, subject := options.subject, text := options.message }
  if env.sendMail message then (message, none)
  else (message, some "Email could not be sent")

/-! ## controllers/authControllers.js -/

/-- Body of a login request. -/
structure LoginBody where
  email : String
  password : String
  deriving DecidableEq, Repr

/-- The `userData` projection with `success`, `accessToken`, `refreshToken`. -/
def loginJson (user : User) (accessToken refreshToken : String) : Json :=
  [("success", .atom (.bool true)),
   ("_id", .atom (.str user._id.toHexString)),
   ("name", .atom (.str user.name)),
   ("email", .atom (.str user.email)),
   ("position", .atom (.str user.position)),
   ("accessToken", .atom (.str accessToken)),
   ("refreshToken", .atom (.str refreshToken))]

/-- Tail shared by both login handlers (lines 121-145 and 182-206): issue the
tokens, set the cookie, send the body. -/
def loginSuccess (env : Env) (s : Store) (user : User) : Outcome :=
  let accessToken := env.generateToken user._id
  let refreshToken := env.generateRefreshToken user._id
  let cookie : Cookie :=
    { name := "jwt", value := refreshToken,
      options := { httpOnly := true, secure := env.nodeEnv == some "production",
                   sameSite := some "strict", maxAge := some (7 * 24 * 60 * 60 * 1000) } }
  { store := s,
    res := { cookies := [cookie], body := some (loginJson user accessToken refreshToken) } }

/-- `loginUser` (POST /api/auth/login). -/
def loginUser (env : Env) (body : LoginBody) (s : Store) : Outcome :=
  match User.findOne s.users body.email with
  | none => fail s 401 "Invalid credentials"
  | some user =>
    if !truthy user.password then fail s 401 "Authentication method not supported"
    else if !user.isVerified then fail s 401 "Please verify your email before logging in"
    else if !user.matchPassword env body.password then fail s 401 "Invalid credentials"
    else loginSuccess env s user

/-- `loginCandidate` (POST /api/auth/logincandidate). -/
def loginCandidate (env : Env) (body : LoginBody) (s : Store) : Outcome :=
  match User.findOne s.users body.email with
  | none => fail s 401 "Invalid credentials"
  | some user =>
    if user.position != "Candidate" then fail s 403 "Access denied: Not a candidate"
    else if !truthy user.password then fail s 401 "Authentication method not supported"
    else if !user.isVerified then fail s 401 "Please verify your email before logging in"
    else if !user.matchPassword env body.password then fail s 401 "Invalid credentials"
    else loginSuccess env s user

/-- Request of `registerUser`: the three body fields it reads, the other fields
the body carries (never read), `req.protocol` and `req.get('host')`. -/
structure RegisterReq where
  name : String
  email : String
  password : String
  extra : List (String × String)
  protocol : String
  host : String
  deriving DecidableEq, Repr

/-- The `verificationUrl` template literal of `registerUser`. -/
def verificationUrl (req : RegisterReq) (userId : ObjectId) (token : String) : String :=
  req.protocol ++ "://" ++ req.host ++ "/api/auth/verify/" ++ userId.toHexString ++ "/" ++ token

/-- Body of the 201 response of `registerUser`. -/
def registerJson (user : User) : Json :=
  [("success", .atom (.bool true)),
   ("data", .obj [("_id", .str user._id.toHexString), ("name", .str user.name),
                  ("email", .str user.email), ("position", .str user.position)]),
   ("message", .atom (.str
      "Verification email sent. Please check your email to verify your account."))]

/-- `registerUser` (POST /api/auth/register). -/
def registerUser (env : Env) (req : RegisterReq) (s : Store) : Outcome :=
  match User.findOne s.users req.email with
  | some _ => fail s 400 "User already exists"
  | none =>
    let (user, s1) := User.create env s req.name req.email req.password "HR Personnel"
    let (verificationToken, s2) :=
      Token.create env s1 user._id (toHex (randomBytes env.entropy 32))
    let sent := sendEmail env
      { email := user.email, subject := "Verify Your Account",
        message := "Please click on the following link to verify your account: " ++
          verificationUrl req user._id verificationToken.token }
    match sent.2 with
    | some e => { store := s2, res := {}, error := some e, mails := [sent.1] }
    | none =>
      { store := s2, res := { statusCode := 201, body := some (registerJson user) },
        mails := [sent.1] }

/-- Body of the 200 response of `verifyUser`. -/
def verifyJson : Json :=
  [("success", .atom (.bool true)),
   ("message", .atom (.str "Account verified successfully. You can now log in."))]

/-- `verifyUser` (GET /api/auth/verify/:userId/:token). -/
def verifyUser (userId : ObjectId) (token : String) (s : Store) : Outcome :=
  match User.findById s.users userId with
  | none => fail s 400 "Invalid link"
  | some user =>
    match Token.findOne s.tokens user._id token with
    | none => fail s 400 "Invalid or expired link"
    | some tokenDoc =>
      let s1 := User.save s { user with isVerified := true }
      let s2 := Token.deleteOne s1 tokenDoc
      { store := s2, res := { statusCode := 200, body := some verifyJson } }

/-! ## Library functions of the remaining handlers -/

/-- Reasons for which `jwt.verify` reports an error. -/
inductive JwtError where
  | expired
  | malformed
  | signatureInvalid
  deriving DecidableEq, Repr

/-- Library calls of `refreshToken`, `forgotPassword` and `resetPassword`:
`sha256 x` is `crypto.createHash('sha256').update(x).digest('hex')` and
`jwtVerify token` is `jwt.verify(token, process.env.JWT_REFRESH_SECRET, ...)`,
giving the error or `decoded.userId`. -/
structure Crypto where
  sha256 : String → String
  jwtVerify : String → Except JwtError ObjectId

/-- Result of a handler that starts a callback whose promise nobody awaits: the
handler's own outcome, and the message of the `Error` thrown inside that callback.
Such an error does not reach the error middleware (the handler's promise has
already resolved); it surfaces as the `unhandledRejection` event of `app.js`, whose
listener closes the server and exits the process. -/
structure AsyncOutcome extends Outcome where
  unhandledRejection : Option String := none
  deriving DecidableEq, Repr

/-! ## models/Token.js: expiry -/

/-- The `expires: 3600` option of `createdAt`, in milliseconds. -/
def Token.ttlMs : Nat := 3600 * 1000

/-- One pass of the store's expiry sweep at time `now` (the TTL index that
`expires: 3600` declares): records whose `createdAt` is `ttlMs` or more in the past
are removed. The sweep is a background task of the store, not a step of any
handler. -/
def ttlSweep (now : Nat) (s : Store) : Store :=
  { s with tokens := s.tokens.filter (fun t => decide (now < t.createdAt + Token.ttlMs)) }

/-! ## controllers/authControllers.js: logout, refresh, password reset -/

/-- `logoutUser` (POST /api/auth/logout). -/
def logoutUser (s : Store) : Outcome :=
  { store := s,
    res := { statusCode := 200,
             cookies := [{ name := "jwt", value := "",
                           options := { httpOnly := true, expires := some 0 } }],
             body := some [("message", .atom (.str "Logged out successfully"))] } }

/-- Request of `refreshToken`: `req.cookies`, absent or the cookies by name. -/
structure RefreshReq where
  cookies : Option (List (String × String))
  deriving DecidableEq, Repr

/-- The value of `cookies?.jwt`. -/
def RefreshReq.jwt (req : RefreshReq) : Option String :=
  req.cookies.bind (fun cs => cs.lookup "jwt")

/-- `refreshToken` (GET /api/auth/refresh). The handler throws only for a missing
cookie; everything after `jwt.verify` runs in the `async` callback passed to it,
which the handler neither awaits nor returns. -/
def refreshToken (env : Env) (lib : Crypto) (req : RefreshReq) (s : Store) : AsyncOutcome :=
  if !truthy req.jwt then { toOutcome := fail s 401 "No refresh token found" }
  else
    match lib.jwtVerify (req.jwt.getD "") with
    | .error _ =>
      { store := s, res := { statusCode := 403 },
        unhandledRejection := some "Invalid refresh token" }
    | .ok userId =>
      match User.findById s.users userId with
      | none =>
        { store := s, res := { statusCode := 401 },
          unhandledRejection := some "User not found" }
      | some user =>
        { store := s,
          res := { body := some [("accessToken", .atom (.str (env.generateToken user._id)))] } }

/-- Request of `forgotPassword`: `req.body.email`, `req.protocol`, `req.get('host')`. -/
structure ForgotReq where
  email : String
  protocol : String
  host : String
  deriving DecidableEq, Repr

/-- The `resetUrl` template literal of `forgotPassword`. -/
def resetUrl (req : ForgotReq) (resetToken : String) : String :=
  req.protocol ++ "://" ++ req.host ++ "/api/auth/resetpassword/" ++ resetToken

/-- The `message` template literal of `forgotPassword`. -/
def resetMessage (url : String) : String :=
  "You are receiving this email because you (or someone else) has requested a password reset. Please click on the following link to reset your password: \n\n " ++
    url ++ " \n\n This link will expire in 10 minutes."

/-- `forgotPassword` (POST /api/auth/forgotpassword). -/
def forgotPassword (env : Env) (lib : Crypto) (req : ForgotReq) (s : Store) : Outcome :=
  match User.findOne s.users req.email with
  | none => fail s 404 "User not found"
  | some user =>
    let resetToken := toHex (randomBytes env.entropy 20)
    let user1 : User :=
      { user with resetPasswordToken := some (lib.sha256 resetToken),
                  resetPasswordExpire := some (env.now + 10 * 60 * 1000) }
    let s1 := User.save s user1
    let sent := sendEmail env
      { email := user1.email, subject := "Password Reset Request",
        message := resetMessage (resetUrl req resetToken) }
    match sent.2 with
    | none =>
      { store := s1,
        res := { statusCode := 200,
                 body := some [("success", .atom (.bool true)),
                               ("message", .atom (.str "Password reset email sent"))] },
        mails := [sent.1] }
    | some _ =>
      let user2 : User := { user1 with resetPasswordToken := none, resetPasswordExpire := none }
      let s2 := User.save s1 user2
      { store := s2, res := { statusCode := 500 }, error := some "Email could not be sent",
        mails := [sent.1] }

/-- `User.findOne({ resetPasswordToken, resetPasswordExpire: { $gt: now } })`: the
first account holding that digest with an expiry after `now`. -/
def User.findOneByReset (users : List User) (digest : String) (now : Nat) : Option User :=
  users.find? (fun u => u.resetPasswordToken == some digest &&
    (match u.resetPasswordExpire with
     | some e => decide (now < e)
     | none => false))

/-- Request of `resetPassword`: `req.params.resettoken` and `req.body.password`. -/
structure ResetReq where
  resettoken : String
  password : String
  deriving DecidableEq, Repr

/-- `resetPassword` (PUT /api/auth/resetpassword/:resettoken). Saving an account
whose password was assigned stores its hash (the model's pre-save hook, per the
spec: hash and set the new password). -/
def resetPassword (env : Env) (lib : Crypto) (req : ResetReq) (s : Store) : Outcome :=
  match User.findOneByReset s.users (lib.sha256 req.resettoken) env.now with
  | none => fail s 400 "Invalid or expired token"
  | some user =>
    let user1 : User :=
      { user with password := some (env.hash req.password),
                  resetPasswordToken := none, resetPasswordExpire := none }
    { store := User.save s user1,
      res := { statusCode := 200,
               body := some [("success", .atom (.bool true)),
                             ("message", .atom (.str "Password updated successfully"))] } }

/-! ## Runs of operations -/

/-- One operation on the store: a request to one of the auth handlers with the
environment it runs in, or a pass of the store's expiry sweep. -/
inductive Op where
  | register (env : Env) (req : RegisterReq)
  | verify (userId : ObjectId) (token : String)
  | login (env : Env) (body : LoginBody)
  | loginCandidate (env : Env) (body : LoginBody)
  | logout
  | refresh (env : Env) (lib : Crypto) (req : RefreshReq)
  | forgotPassword (env : Env) (lib : Crypto) (req : ForgotReq)
  | resetPassword (env : Env) (lib : Crypto) (req : ResetReq)
  | sweep (now : Nat)

/-- The store after one operation. -/
def Op.step (op : Op) (s : Store) : Store :=
  match op with
  | .register env req => (registerUser env req s).store
  | .verify userId token => (verifyUser userId token s).store
  | .login env body => (loginUser env body s).store
  | .loginCandidate env body => (HrBackend.loginCandidate env body s).store
  | .logout => (logoutUser s).store
  | .refresh env lib req => (refreshToken env lib req s).store
  | .forgotPassword env lib req => (HrBackend.forgotPassword env lib req s).store
  | .resetPassword env lib req => (HrBackend.resetPassword env lib req s).store
  | .sweep now => ttlSweep now s

/-- The store after a sequence of operations, first to last. -/
def run (ops : List Op) (s : Store) : Store :=
  ops.foldl (fun st op => op.step st) s

/-- Both reset fields present or both absent. -/
def User.resetPaired (u : User) : Prop :=
  u.resetPasswordToken.isSome = u.resetPasswordExpire.isSome

/-! ## models/Candidate.js, controllers/candidateController.js, utils/attentionCards.js -/

/-- The `enum` of `status` in `models/Candidate.js` (and of the `StatusUpdate`
schema of the route). -/
inductive Status where
  | Applied
  | Interviewing
  | Offered
  | Hired
  | Rejected
  deriving DecidableEq, Repr

/-- The string a status is stored as. -/
def Status.toString : Status → String
  | .Applied => "Applied"
  | .Interviewing => "Interviewing"
  | .Offered => "Offered"
  | .Hired => "Hired"
  | .Rejected => "Rejected"

/-- A document of `models/Candidate.js`. Dates are milliseconds since the epoch;
`experience`, a Number that no handler computes with, is a natural number. -/
structure Candidate where
  _id : ObjectId
  firstName : String
  lastName : String
  email : String
  phone : String
  qualifications : List String
  experience : Nat
  currentPosition : Option String
  currentCompany : Option String
  jobPreferences : List String
  status : String
  interviewDate : Option Nat
  feedback : Option String
  resume : Option String
  appliedJob : ObjectId
  createdAt : Nat
  deriving DecidableEq, Repr

/-- JavaScript truthiness of an optional number: an absent value and 0 are falsy. -/
def truthyNum (v : Option Nat) : Bool :=
  match v with
  | none => false
  | some n => n != 0

/-- The three fields `updateCandidateStatus` reads from `req.body`, each absent or
provided: a status of the enum, a date given as its millisecond timestamp (possibly
0), a text (possibly the empty string). -/
structure StatusUpdate where
  status : Option Status
  interviewDate : Option Nat
  feedback : Option String
  deriving DecidableEq, Repr

/-- Result of a candidate handler: the collection afterwards, the status code, the
message of the `Error` thrown, and `message` and `data` of the body sent. -/
structure CandidateOutcome where
  candidates : List Candidate
  statusCode : Nat := 200
  error : Option String := none
  message : Option String := none
  data : Option Candidate := none
  deriving DecidableEq, Repr

/-- `Candidate.findById(id)`. -/
def Candidate.findById (candidates : List Candidate) (id : ObjectId) : Option Candidate :=
  candidates.find? (fun c => c._id == id)

/-- `candidate.save()`: the stored document with the same `_id` becomes `candidate`. -/
def Candidate.save (candidates : List Candidate) (candidate : Candidate) : List Candidate :=
  candidates.map (fun c => if c._id = candidate._id then candidate else c)

/-- `updateCandidateStatus` (PUT /api/candidates/:id/status). Each of the three
assignments is `field = provided || candidate.field`, so the provided value is
stored only when it is truthy: a status unless its string is empty, a date unless
it is 0, a text unless it is the empty string. -/
def updateCandidateStatus (id : ObjectId) (body : StatusUpdate)
    (candidates : List Candidate) : CandidateOutcome :=
  match Candidate.findById candidates id with
  | none => { candidates := candidates, statusCode := 404, error := some "Candidate not found" }
  | some candidate =>
    let candidate1 : Candidate :=
      { candidate with
        status := if truthy (body.status.map Status.toString)
          then (body.status.map Status.toString).getD candidate.status
          else candidate.status,
        interviewDate := if truthyNum body.interviewDate then body.interviewDate
          else candidate.interviewDate,
        feedback := if truthy body.feedback then body.feedback else candidate.feedback }
    { candidates := Candidate.save candidates candidate1, statusCode := 200,
      message := some "Candidate status updated successfully", data := some candidate1 }

/-- One card of `generateAttentionCards`. -/
structure AttentionCard where
  title : String
  count : Nat
  description : String
  priority : String
  deriving DecidableEq, Repr

/-- `generateAttentionCards(candidates)` with `now` the value of `new Date()`. -/
def generateAttentionCards (now : Nat) (candidates : List Candidate) : List AttentionCard :=
  let pendingReviews := (candidates.filter (fun c => c.status == "Applied")).length
  let upcomingInterviews := (candidates.filter (fun c =>
    match c.interviewDate with
    | none => false
    | some d => decide (d > now) && decide (d ≤ now + 7 * 24 * 60 * 60 * 1000))).length
  let onboardingTasks := (candidates.filter (fun c => c.status == "Hired")).length
  [{ title := "Pending Reviews", count := pendingReviews,
     description := "Candidates awaiting initial review",
     priority := if pendingReviews > 0 then "high" else "none" },
   { title := "Upcoming Interviews", count := upcomingInterviews,
     description := "Interviews scheduled within the next 7 days",
     priority := if upcomingInterviews > 0 then "medium" else "none" },
   { title := "Onboarding Tasks", count := onboardingTasks,
     description := "New hires to be onboarded",
     priority := if onboardingTasks > 0 then "low" else "none" }]

/-! ## Concrete inputs used in examples -/

/-- An environment with a toy hasher (`h:` followed by the password), a transporter that delivers
everything and a random source of zero bytes. -/
def envOk : Env :=
  { hash := fun p => "h:" ++ p,
    verify := fun p h => h == "h:" ++ p,
    generateToken := fun i => "access." ++ ObjectId.toHexString i,
    generateRefreshToken := fun i => "refresh." ++ ObjectId.toHexString i,
    sendMail := fun _ => true,
    nodeEnv := some "production",
    emailFromName := "HR",
    emailFromAddress := "hr@x.com",
    entropy := fun _ => 0,
    now := 1000 }

/-- The environment `envOk` with a transporter that fails. -/
def envDown : Env := { envOk with sendMail := fun _ => false }

/-- An account: Alice, `a@x.com`, password `secret1`. -/
def alice (position : String) (password : Option String) (isVerified : Bool) : User :=
  { _id := 1, name := "Alice", email := "a@x.com", position := position,
    password := password, isVerified := isVerified,
    resetPasswordToken := none, resetPasswordExpire := none }

/-- A registration request for Bob that also carries a `position` field. -/
def reqBob : RegisterReq :=
  { name := "Bob", email := "b@x.com", password := "pw", extra := [("position", "Admin")],
    protocol := "http", host := "localhost" }

/-- A store holding one account. -/
def storeOf (u : User) : Store := { users := [u], tokens := [], nextId := 2 }

/-- An account: Bob, `b@x.com`, unverified. -/
def bob : User :=
  { _id := 2, name := "Bob", email := "b@x.com", position := "HR Personnel",
    password := some "h:pw", isVerified := false,
    resetPasswordToken := none, resetPasswordExpire := none }

/-- A store with two unverified accounts, each with a verification token. -/
def storePending : Store :=
  { users := [alice "HR Personnel" (some "h:secret1") false, bob],
    tokens := [{ _id := 3, userId := 1, token := "aa", createdAt := 1000 },
               { _id := 4, userId := 2, token := "bb", createdAt := 1000 }],
    nextId := 5 }

/-- A toy digest of 64 characters: the text reversed, padded with `0`. -/
def toyDigest (x : String) : String :=
  String.mk ((x.data.reverse ++ List.replicate 64 '0').take 64)

/-- Library functions for examples: `toyDigest`, and a verifier that accepts
`good1` for account 1 and `good9` for account 9, reports `old` as expired,
`forged` as wrongly signed and anything else as malformed. -/
def libOk : Crypto :=
  { sha256 := toyDigest,
    jwtVerify := fun tok =>
      if tok = "good1" then .ok 1
      else if tok = "good9" then .ok 9
      else if tok = "old" then .error .expired
      else if tok = "forged" then .error .signatureInvalid
      else .error .malformed }

/-- A request for a password reset of Alice's account. -/
def reqForgot : ForgotReq := { email := "a@x.com", protocol := "http", host := "localhost" }

/-- A candidate: John Doe, with the given id, status, interview date and feedback. -/
def john (id : ObjectId) (status : String) (interviewDate : Option Nat)
    (feedback : Option String) : Candidate :=
  { _id := id, firstName := "John", lastName := "Doe", email := "john.doe@example.com",
    phone := "+1234567890", qualifications := ["BSc"], experience := 5,
    currentPosition := none, currentCompany := none, jobPreferences := ["Backend"],
    status := status, interviewDate := interviewDate, feedback := feedback,
    resume := none, appliedJob := 7, createdAt := 0 }

/-- The empty store. -/
def emptyStore : Store := { users := [], tokens := [], nextId := 0 }

/-- Alice with a reset digest of the value `r1` that expires at 601000 ms. -/
def aliceReset : User :=
  { alice "HR Personnel" (some "h:secret1") true with
      resetPasswordToken := some (toyDigest "r1"), resetPasswordExpire := some 601000 }

/-- The environment `envOk` one second later, with a random source of bytes 1. -/
def envLater : Env := { envOk with entropy := fun _ => 1, now := 2000 }

/-- The environment `envLater` with a transporter that fails. -/
def envLaterDown : Env := { envLater with sendMail := fun _ => false }

/-! ## Lookup lemmas -/

theorem User.findOne_eq_some_of_unique {users : List User} {u : User} (hu : u ∈ users)
    (huniq : ∀ v ∈ users, v.email = u.email → v = u) :
    User.findOne users u.email = some u := by
  unfold User.findOne
  cases h : users.find? (fun v => v.email == u.email) with
  | none =>
    have := List.find?_eq_none.mp h u hu
    simp at this
  | some v =>
    have hv : v.email = u.email := by simpa using List.find?_some h
    rw [huniq v (List.mem_of_find?_eq_some h) hv]

theorem loginSuccess_error (env : Env) (s : Store) (u : User) :
    (loginSuccess env s u).error = none := rfl

theorem User.findOne_eq_none_of_fresh {users : List User} {email : String}
    (h : ∀ u ∈ users, u.email ≠ email) : User.findOne users email = none := by
  unfold User.findOne
  rw [List.find?_eq_none]
  intro u hu
  simpa using h u hu

theorem User.findOne_isSome_of_mem {users : List User} {email : String}
    (h : ∃ u ∈ users, u.email = email) : ∃ v, User.findOne users email = some v := by
  obtain ⟨u, hu, he⟩ := h
  cases hf : User.findOne users email with
  | some v => exact ⟨v, rfl⟩
  | none =>
    have := List.find?_eq_none.mp hf u hu
    simp [he] at this

theorem hexDigit_mem (n : Nat) (h : n < 16) : hexDigit n ∈ "0123456789abcdef".data := by
  interval_cases n <;> decide

theorem hexChars_length (bytes : List (Fin 256)) :
    (hexChars bytes).length = 2 * bytes.length := by
  induction bytes with
  | nil => rfl
  | cons b bs ih => simp [hexChars, ih]; omega

theorem hexChars_mem (bytes : List (Fin 256)) :
    ∀ c ∈ hexChars bytes, c ∈ "0123456789abcdef".data := by
  induction bytes with
  | nil => simp [hexChars]
  | cons b bs ih =>
    intro c hc
    simp only [hexChars, List.mem_cons] at hc
    rcases hc with h | h | h
    · rw [h]; exact hexDigit_mem _ (by have := b.isLt; omega)
    · rw [h]; exact hexDigit_mem _ (by omega)
    · exact ih c h

theorem toHex_randomBytes_length (entropy : Nat → Fin 256) (n : Nat) :
    (toHex (randomBytes entropy n)).length = 2 * n := by
  simp [toHex, randomBytes, String.length, hexChars_length]

theorem registerUser_of_mem (env : Env) (req : RegisterReq) (s : Store)
    (h : ∃ u ∈ s.users, u.email = req.email) :
    registerUser env req s = fail s 400 "User already exists" := by
  obtain ⟨v, hv⟩ := User.findOne_isSome_of_mem h
  simp [registerUser, hv]

theorem User.eq_of_id_eq {users : List User} (hnd : (users.map (fun u => u._id)).Nodup)
    {a v : User} (ha : a ∈ users) (hv : v ∈ users) (h : v._id = a._id) : v = a :=
  List.inj_on_of_nodup_map hnd hv ha h

theorem User.findById_eq_some_of_nodup {users : List User}
    (hnd : (users.map (fun u => u._id)).Nodup) {a : User} (ha : a ∈ users) :
    User.findById users a._id = some a := by
  unfold User.findById
  cases h : users.find? (fun v => v._id == a._id) with
  | none =>
    have := List.find?_eq_none.mp h a ha
    simp at this
  | some v =>
    have hv : v._id = a._id := by simpa using List.find?_some h
    rw [User.eq_of_id_eq hnd ha (List.mem_of_find?_eq_some h) hv]

theorem User.findById_eq_none {users : List User} {id : ObjectId}
    (h : ∀ u ∈ users, u._id ≠ id) : User.findById users id = none := by
  unfold User.findById
  rw [List.find?_eq_none]
  intro u hu
  simpa using h u hu

theorem User.findById_some {users : List User} {id : ObjectId}
    (h : ∃ u ∈ users, u._id = id) : ∃ v, User.findById users id = some v ∧ v._id = id := by
  obtain ⟨u, hu, he⟩ := h
  cases hf : User.findById users id with
  | some v =>
    refine ⟨v, rfl, ?_⟩
    unfold User.findById at hf
    simpa using List.find?_some hf
  | none =>
    have := List.find?_eq_none.mp hf u hu
    simp [he] at this

theorem Token.findOne_some {tokens : List Token} (userId : ObjectId) (token : String)
    (h : ∃ t ∈ tokens, t.userId = userId ∧ t.token = token) :
    ∃ t0, Token.findOne tokens userId token = some t0 ∧ t0 ∈ tokens ∧
      t0.userId = userId ∧ t0.token = token := by
  obtain ⟨t, ht, h1, h2⟩ := h
  cases hf : Token.findOne tokens userId token with
  | some t0 =>
    unfold Token.findOne at hf
    have hp := List.find?_some hf
    simp at hp
    exact ⟨t0, rfl, List.mem_of_find?_eq_some hf, hp.1, hp.2⟩
  | none =>
    have := List.find?_eq_none.mp hf t ht
    simp [h1, h2] at this

theorem Token.findOne_eq_none {tokens : List Token} {userId : ObjectId} {token : String}
    (h : ∀ t ∈ tokens, ¬ (t.userId = userId ∧ t.token = token)) :
    Token.findOne tokens userId token = none := by
  unfold Token.findOne
  rw [List.find?_eq_none]
  intro t ht
  simpa using h t ht

theorem Token.filter_id_eq_erase {tokens : List Token}
    (hnd : (tokens.map (fun t => t._id)).Nodup) {t0 : Token} (h0 : t0 ∈ tokens) :
    tokens.filter (fun x => x._id != t0._id) = tokens.erase t0 := by
  rw [(List.Nodup.of_map _ hnd).erase_eq_filter]
  apply List.filter_congr
  intro x hx
  by_cases hxe : x = t0
  · simp [hxe]
  · have : x._id ≠ t0._id := fun hid => hxe (List.inj_on_of_nodup_map hnd hx h0 hid)
    rw [Bool.eq_iff_iff]
    simp [bne_iff_ne, hxe, this]

/-! ## Login -/

/-- C1: `loginUser` applies its checks in order and stops at the first that
fails: unknown email, then missing password hash, then `isVerified` false, then
password mismatch; it succeeds exactly when all four pass. -/
theorem loginUser_check_order (env : Env) (body : LoginBody) (s : Store) :
    (User.findOne s.users body.email = none →
      loginUser env body s = fail s 401 "Invalid credentials") ∧
    (∀ u, User.findOne s.users body.email = some u →
      (truthy u.password = false →
        loginUser env body s = fail s 401 "Authentication method not supported") ∧
      (truthy u.password = true → u.isVerified = false →
        loginUser env body s = fail s 401 "Please verify your email before logging in") ∧
      (truthy u.password = true → u.isVerified = true →
        u.matchPassword env body.password = false →
        loginUser env body s = fail s 401 "Invalid credentials") ∧
      (truthy u.password = true → u.isVerified = true →
        u.matchPassword env body.password = true →
        loginUser env body s = loginSuccess env s u)) ∧
    ((loginUser env body s).error = none ↔
      ∃ u, User.findOne s.users body.email = some u ∧ truthy u.password = true ∧
        u.isVerified = true ∧ u.matchPassword env body.password = true) := by
  refine ⟨?_, ?_, ?_⟩
  · intro h
    simp [loginUser, h]
  · intro u h
    refine ⟨?_, ?_, ?_, ?_⟩ <;> intros <;> simp_all [loginUser]
  · unfold loginUser
    cases h : User.findOne s.users body.email with
    | none => simp [fail]
    | some u =>
      by_cases h1 : truthy u.password = true <;> by_cases h2 : u.isVerified = true <;>
        by_cases h3 : u.matchPassword env body.password = true <;>
        simp_all [fail, loginSuccess_error]

/-- The two examples of C1: an unverified account without a password hash is told
that the authentication method is not supported, and an unverified account with a
wrong password is told to verify its email. -/
theorem loginUser_check_order_examples :
    loginUser envOk ⟨"a@x.com", "secret1"⟩ (storeOf (alice "HR Personnel" none false))
      = fail (storeOf (alice "HR Personnel" none false)) 401
          "Authentication method not supported" ∧
    loginUser envOk ⟨"a@x.com", "wrong"⟩
        (storeOf (alice "HR Personnel" (some "h:secret1") false))
      = fail (storeOf (alice "HR Personnel" (some "h:secret1") false)) 401
          "Please verify your email before logging in" :=
  ⟨((loginUser_check_order envOk ⟨"a@x.com", "secret1"⟩
      (storeOf (alice "HR Personnel" none false))).2.1
      (alice "HR Personnel" none false) (by decide)).1 (by decide),
   ((loginUser_check_order envOk ⟨"a@x.com", "wrong"⟩
      (storeOf (alice "HR Personnel" (some "h:secret1") false))).2.1
      (alice "HR Personnel" (some "h:secret1") false) (by decide)).2.1
      (by decide) (by decide)⟩

/-- C2: `loginCandidate` answers 401 for an unknown email, 403 for every existing
account whose position is not `Candidate` (whatever its password, hash and
`isVerified`), and for an account with position `Candidate` exactly what
`loginUser` answers. -/
theorem loginCandidate_role_check (env : Env) (body : LoginBody) (s : Store) :
    (User.findOne s.users body.email = none →
      loginCandidate env body s = fail s 401 "Invalid credentials") ∧
    (∀ u, User.findOne s.users body.email = some u → u.position ≠ "Candidate" →
      loginCandidate env body s = fail s 403 "Access denied: Not a candidate") ∧
    (∀ u, User.findOne s.users body.email = some u → u.position = "Candidate" →
      loginCandidate env body s = loginUser env body s) := by
  refine ⟨?_, ?_, ?_⟩
  · intro h
    simp [loginCandidate, h]
  · intro u h hp
    simp [loginCandidate, h, hp]
  · intro u h hp
    simp [loginCandidate, loginUser, h, hp]

/-- C2 on concrete accounts: a verified HR account with the right password is
refused with 403, a verified candidate gets the answer of `loginUser`. -/
theorem loginCandidate_role_check_examples :
    loginCandidate envOk ⟨"a@x.com", "secret1"⟩
        (storeOf (alice "HR Personnel" (some "h:secret1") true))
      = fail (storeOf (alice "HR Personnel" (some "h:secret1") true)) 403
          "Access denied: Not a candidate" ∧
    loginCandidate envOk ⟨"a@x.com", "secret1"⟩
        (storeOf (alice "Candidate" (some "h:secret1") true))
      = loginUser envOk ⟨"a@x.com", "secret1"⟩
        (storeOf (alice "Candidate" (some "h:secret1") true)) :=
  ⟨(loginCandidate_role_check envOk ⟨"a@x.com", "secret1"⟩
      (storeOf (alice "HR Personnel" (some "h:secret1") true))).2.1
      (alice "HR Personnel" (some "h:secret1") true) (by decide) (by decide),
   (loginCandidate_role_check envOk ⟨"a@x.com", "secret1"⟩
      (storeOf (alice "Candidate" (some "h:secret1") true))).2.2
      (alice "Candidate" (some "h:secret1") true) (by decide) (by decide)⟩

/-- C3: for an unverified account (the only one with its email) and any submitted
password, neither login handler succeeds: each throws, sends no body (so no access
or refresh token) and sets no cookie. -/
theorem unverified_never_authenticates (env : Env) (s : Store) (u : User)
    (password : String) (hu : u ∈ s.users)
    (huniq : ∀ v ∈ s.users, v.email = u.email → v = u) (hv : u.isVerified = false) :
    ((loginUser env ⟨u.email, password⟩ s).error ≠ none ∧
      (loginUser env ⟨u.email, password⟩ s).res.body = none ∧
      (loginUser env ⟨u.email, password⟩ s).res.cookies = []) ∧
    ((loginCandidate env ⟨u.email, password⟩ s).error ≠ none ∧
      (loginCandidate env ⟨u.email, password⟩ s).res.body = none ∧
      (loginCandidate env ⟨u.email, password⟩ s).res.cookies = []) := by
  have h := User.findOne_eq_some_of_unique hu huniq
  constructor
  · by_cases h1 : truthy u.password = true <;> simp [loginUser, h, h1, hv, fail]
  · by_cases h0 : u.position = "Candidate" <;> by_cases h1 : truthy u.password = true <;>
      simp [loginCandidate, h, h0, h1, hv, fail]

/-- C3 on a concrete store: unverified Alice with her correct password. -/
theorem unverified_never_authenticates_witness :
    ((loginUser envOk ⟨"a@x.com", "secret1"⟩
        (storeOf (alice "Candidate" (some "h:secret1") false))).error ≠ none ∧
      (loginUser envOk ⟨"a@x.com", "secret1"⟩
        (storeOf (alice "Candidate" (some "h:secret1") false))).res.body = none ∧
      (loginUser envOk ⟨"a@x.com", "secret1"⟩
        (storeOf (alice "Candidate" (some "h:secret1") false))).res.cookies = []) ∧
    ((loginCandidate envOk ⟨"a@x.com", "secret1"⟩
        (storeOf (alice "Candidate" (some "h:secret1") false))).error ≠ none ∧
      (loginCandidate envOk ⟨"a@x.com", "secret1"⟩
        (storeOf (alice "Candidate" (some "h:secret1") false))).res.body = none ∧
      (loginCandidate envOk ⟨"a@x.com", "secret1"⟩
        (storeOf (alice "Candidate" (some "h:secret1") false))).res.cookies = []) :=
  unverified_never_authenticates envOk (storeOf (alice "Candidate" (some "h:secret1") false))
    (alice "Candidate" (some "h:secret1") false) "secret1" (by decide) (by decide) rfl

/-- C4 fails for `loginCandidate` on an account that is not a candidate: an
unverified HR account with a stored hash and its correct password is refused with
403 `Access denied: Not a candidate`, not with the not-verified error. -/
theorem loginCandidate_unverified_hr_forbidden :
    (alice "HR Personnel" (some "h:secret1") false).isVerified = false ∧
    truthy (alice "HR Personnel" (some "h:secret1") false).password = true ∧
    (alice "HR Personnel" (some "h:secret1") false).matchPassword envOk "secret1" = true ∧
    loginCandidate envOk ⟨"a@x.com", "secret1"⟩
        (storeOf (alice "HR Personnel" (some "h:secret1") false))
      = fail (storeOf (alice "HR Personnel" (some "h:secret1") false)) 403
          "Access denied: Not a candidate" ∧
    loginCandidate envOk ⟨"a@x.com", "secret1"⟩
        (storeOf (alice "HR Personnel" (some "h:secret1") false))
      ≠ fail (storeOf (alice "HR Personnel" (some "h:secret1") false)) 401
          "Please verify your email before logging in" := by
  decide

/-- C4 (amended): for an unverified account with a stored password hash, a login
with its email and correct password fails with 401 `Please verify your email
before logging in` through `loginUser`, and through `loginCandidate` when the
account's position is `Candidate`; through `loginCandidate` an account with
another position is refused with 403 `Access denied: Not a candidate`. -/
theorem unverified_login_rejected (env : Env) (s : Store) (u : User) (password : String)
    (hu : u ∈ s.users) (huniq : ∀ v ∈ s.users, v.email = u.email → v = u)
    (hv : u.isVerified = false) (hp : truthy u.password = true)
    (hc : u.matchPassword env password = true) :
    loginUser env ⟨u.email, password⟩ s
      = fail s 401 "Please verify your email before logging in" ∧
    (u.position = "Candidate" →
      loginCandidate env ⟨u.email, password⟩ s
        = fail s 401 "Please verify your email before logging in") ∧
    (u.position ≠ "Candidate" →
      loginCandidate env ⟨u.email, password⟩ s
        = fail s 403 "Access denied: Not a candidate") := by
  have h := User.findOne_eq_some_of_unique hu huniq
  have _ := hc
  refine ⟨?_, ?_, ?_⟩
  · simp [loginUser, h, hp, hv]
  · intro h0
    simp [loginCandidate, h, h0, hp, hv]
  · intro h0
    simp [loginCandidate, h, h0]

/-- C4 (amended) on a concrete store: an unverified candidate with her correct
password. -/
theorem unverified_login_rejected_witness :
    loginUser envOk ⟨"a@x.com", "secret1"⟩
        (storeOf (alice "Candidate" (some "h:secret1") false))
      = fail (storeOf (alice "Candidate" (some "h:secret1") false)) 401
          "Please verify your email before logging in" ∧
    loginCandidate envOk ⟨"a@x.com", "secret1"⟩
        (storeOf (alice "Candidate" (some "h:secret1") false))
      = fail (storeOf (alice "Candidate" (some "h:secret1") false)) 401
          "Please verify your email before logging in" :=
  have h := unverified_login_rejected envOk
    (storeOf (alice "Candidate" (some "h:secret1") false))
    (alice "Candidate" (some "h:secret1") false) "secret1"
    (by decide) (by decide) rfl (by decide) (by decide)
  ⟨h.1, h.2.1 rfl⟩

/-- C5: on a successful login through either handler the body is exactly
`success`, `_id`, `name`, `email`, `position`, `accessToken`, `refreshToken` of
the account found by the email, both tokens issued for its id, and exactly one
cookie is set: `jwt`, holding the refresh token of the body, `httpOnly`,
`sameSite` strict, `maxAge` 604800000 ms (7 days), `secure` exactly when
`NODE_ENV` is `production`. -/
theorem login_success_response (env : Env) (body : LoginBody) (s : Store) (out : Outcome)
    (hout : out = loginUser env body s ∨ out = loginCandidate env body s)
    (hok : out.error = none) :
    ∃ u c, User.findOne s.users body.email = some u ∧
      out.res.body = some
        [("success", .atom (.bool true)),
         ("_id", .atom (.str u._id.toHexString)),
         ("name", .atom (.str u.name)),
         ("email", .atom (.str u.email)),
         ("position", .atom (.str u.position)),
         ("accessToken", .atom (.str (env.generateToken u._id))),
         ("refreshToken", .atom (.str (env.generateRefreshToken u._id)))] ∧
      out.res.cookies = [c] ∧ c.name = "jwt" ∧ c.value = env.generateRefreshToken u._id ∧
      c.options.httpOnly = true ∧ c.options.sameSite = some "strict" ∧
      c.options.maxAge = some 604800000 ∧ 604800000 = 7 * 24 * 60 * 60 * 1000 ∧
      c.options.expires = none ∧
      (c.options.secure = true ↔ env.nodeEnv = some "production") := by
  have key : ∀ u, User.findOne s.users body.email = some u → out = loginSuccess env s u →
      ∃ u c, User.findOne s.users body.email = some u ∧
        out.res.body = some
          [("success", .atom (.bool true)),
           ("_id", .atom (.str u._id.toHexString)),
           ("name", .atom (.str u.name)),
           ("email", .atom (.str u.email)),
           ("position", .atom (.str u.position)),
           ("accessToken", .atom (.str (env.generateToken u._id))),
           ("refreshToken", .atom (.str (env.generateRefreshToken u._id)))] ∧
        out.res.cookies = [c] ∧ c.name = "jwt" ∧ c.value = env.generateRefreshToken u._id ∧
        c.options.httpOnly = true ∧ c.options.sameSite = some "strict" ∧
        c.options.maxAge = some 604800000 ∧ 604800000 = 7 * 24 * 60 * 60 * 1000 ∧
        c.options.expires = none ∧
        (c.options.secure = true ↔ env.nodeEnv = some "production") := by
    intro u hu he
    subst he
    exact ⟨u, _, hu, rfl, rfl, rfl, rfl, rfl, rfl, rfl, rfl, rfl, by simp [loginSuccess]⟩
  cases hf : User.findOne s.users body.email with
  | none =>
    rcases hout with h | h <;> subst h <;> simp [loginUser, loginCandidate, hf, fail] at hok
  | some u =>
    rw [hf] at key
    apply key u rfl
    rcases hout with h | h
    · subst h
      by_cases h1 : truthy u.password = true <;> by_cases h2 : u.isVerified = true <;>
        by_cases h3 : u.matchPassword env body.password = true <;>
        simp_all [loginUser, fail]
    · subst h
      by_cases h0 : u.position = "Candidate" <;>
        by_cases h1 : truthy u.password = true <;> by_cases h2 : u.isVerified = true <;>
        by_cases h3 : u.matchPassword env body.password = true <;>
        simp_all [loginCandidate, fail]

/-- C5 on a concrete store: verified Alice logs in with her password in
production mode. -/
theorem login_success_response_witness :
    ∃ u c, User.findOne (storeOf (alice "HR Personnel" (some "h:secret1") true)).users
        "a@x.com" = some u ∧
      (loginUser envOk ⟨"a@x.com", "secret1"⟩
        (storeOf (alice "HR Personnel" (some "h:secret1") true))).res.body = some
        [("success", .atom (.bool true)),
         ("_id", .atom (.str u._id.toHexString)),
         ("name", .atom (.str u.name)),
         ("email", .atom (.str u.email)),
         ("position", .atom (.str u.position)),
         ("accessToken", .atom (.str (envOk.generateToken u._id))),
         ("refreshToken", .atom (.str (envOk.generateRefreshToken u._id)))] ∧
      (loginUser envOk ⟨"a@x.com", "secret1"⟩
        (storeOf (alice "HR Personnel" (some "h:secret1") true))).res.cookies = [c] ∧
      c.name = "jwt" ∧ c.value = envOk.generateRefreshToken u._id ∧
      c.options.httpOnly = true ∧ c.options.sameSite = some "strict" ∧
      c.options.maxAge = some 604800000 ∧ 604800000 = 7 * 24 * 60 * 60 * 1000 ∧
      c.options.expires = none ∧
      (c.options.secure = true ↔ envOk.nodeEnv = some "production") :=
  login_success_response envOk ⟨"a@x.com", "secret1"⟩
    (storeOf (alice "HR Personnel" (some "h:secret1") true)) _ (Or.inl rfl) (by decide)

/-! ## Registration -/

/-- C6: when an account with the submitted email exists, `registerUser` fails with
400 `User already exists`; the store is unchanged (no account, no token created or
modified), no email is handed to the transporter and no body is sent. -/
theorem registerUser_existing_email (env : Env) (req : RegisterReq) (s : Store)
    (h : ∃ u ∈ s.users, u.email = req.email) :
    registerUser env req s = fail s 400 "User already exists" ∧
    (registerUser env req s).store = s ∧
    (registerUser env req s).mails = [] ∧
    (registerUser env req s).res.statusCode = 400 ∧
    (registerUser env req s).res.body = none ∧
    (registerUser env req s).error = some "User already exists" := by
  rw [registerUser_of_mem env req s h]
  exact ⟨rfl, rfl, rfl, rfl, rfl, rfl⟩

/-- C6 on a concrete store: registering Alice's email again. -/
theorem registerUser_existing_email_witness :
    registerUser envOk ⟨"Eve", "a@x.com", "pw", [], "http", "localhost"⟩
        (storeOf (alice "HR Personnel" (some "h:secret1") true))
      = fail (storeOf (alice "HR Personnel" (some "h:secret1") true)) 400
          "User already exists" :=
  (registerUser_existing_email envOk ⟨"Eve", "a@x.com", "pw", [], "http", "localhost"⟩
    (storeOf (alice "HR Personnel" (some "h:secret1") true))
    ⟨alice "HR Personnel" (some "h:secret1") true, by decide, by decide⟩).1

/-- C7: for a fresh email and a transporter that delivers to it, `registerUser`
appends exactly one account (that name and email, hashed password, `isVerified`
false, position `HR Personnel` whatever else the body carries) and exactly one
token (for the new account's id, valued the 64-character hex encoding of 32 random
bytes), hands the transporter one message whose link is
`protocol://host/api/auth/verify/id/token`, and responds 201 with `data` made of
exactly `_id`, `name`, `email`, `position`. -/
theorem registerUser_fresh_email (env : Env) (req : RegisterReq) (s : Store)
    (hfresh : ∀ u ∈ s.users, u.email ≠ req.email)
    (hsend : ∀ m : MailMessage, m.to_ = req.email → env.sendMail m = true) :
    ∃ (u : User) (t : Token) (m : MailMessage),
      (registerUser env req s).store.users = s.users ++ [u] ∧
      u.name = req.name ∧ u.email = req.email ∧ u.position = "HR Personnel" ∧
      u.isVerified = false ∧ u.password = some (env.hash req.password) ∧
      u.resetPasswordToken = none ∧ u.resetPasswordExpire = none ∧
      (registerUser env req s).store.tokens = s.tokens ++ [t] ∧
      t.userId = u._id ∧ t.token = toHex (randomBytes env.entropy 32) ∧
      t.token.length = 64 ∧ (∀ c ∈ t.token.data, c ∈ "0123456789abcdef".data) ∧
      (registerUser env req s).mails = [m] ∧ m.to_ = req.email ∧
      m.subject = "Verify Your Account" ∧
      m.text = "Please click on the following link to verify your account: " ++
        (req.protocol ++ "://" ++ req.host ++ "/api/auth/verify/" ++
          u._id.toHexString ++ "/" ++ t.token) ∧
      (registerUser env req s).error = none ∧
      (registerUser env req s).res.statusCode = 201 ∧
      (registerUser env req s).res.cookies = [] ∧
      (registerUser env req s).res.body = some
        [("success", .atom (.bool true)),
         ("data", .obj [("_id", .str u._id.toHexString), ("name", .str req.name),
                        ("email", .str req.email), ("position", .str "HR Personnel")]),
         ("message", .atom (.str
            "Verification email sent. Please check your email to verify your account."))] := by
  have hf := User.findOne_eq_none_of_fresh hfresh
  have hm := hsend
    { from_ := env.emailFromName ++ " <" ++ env.emailFromAddress ++ ">",
      to_ := req.email, subject := "Verify Your Account",
      text := "Please click on the following link to verify your account: " ++
        verificationUrl req s.nextId (toHex (randomBytes env.entropy 32)) } rfl
  have e : registerUser env req s =
      { store := (Token.create env
            (User.create env s req.name req.email req.password "HR Personnel").2
            s.nextId (toHex (randomBytes env.entropy 32))).2,
        res := { statusCode := 201, body := some (registerJson
            (User.create env s req.name req.email req.password "HR Personnel").1) },
        mails := [(sendEmail env
          { email := req.email, subject := "Verify Your Account",
            message := "Please click on the following link to verify your account: " ++
              verificationUrl req s.nextId (toHex (randomBytes env.entropy 32)) }).1] } := by
    simp [registerUser, hf, User.create, Token.create, sendEmail, hm]
  rw [e]
  refine ⟨(User.create env s req.name req.email req.password "HR Personnel").1,
    (Token.create env (User.create env s req.name req.email req.password "HR Personnel").2
      s.nextId (toHex (randomBytes env.entropy 32))).1, _,
    rfl, rfl, rfl, rfl, rfl, rfl, rfl, rfl, rfl, rfl, rfl, ?_, ?_,
    rfl, ?_, ?_, ?_, rfl, rfl, rfl, rfl⟩
  · exact toHex_randomBytes_length env.entropy 32
  · exact hexChars_mem _
  · simp [sendEmail]; split <;> rfl
  · simp [sendEmail]; split <;> rfl
  · simp [sendEmail, verificationUrl, User.create, Token.create]; split <;> rfl

/-- C7 on a concrete store: Bob registers next to Alice. -/
theorem registerUser_fresh_email_witness :
    (registerUser envOk reqBob (storeOf (alice "HR Personnel" (some "h:secret1") true))).error
      = none ∧
    (registerUser envOk reqBob
      (storeOf (alice "HR Personnel" (some "h:secret1") true))).res.statusCode = 201 := by
  obtain ⟨u, t, m, h⟩ := registerUser_fresh_email envOk reqBob
    (storeOf (alice "HR Personnel" (some "h:secret1") true)) (by decide) (fun _ _ => rfl)
  exact ⟨h.2.2.2.2.2.2.2.2.2.2.2.2.2.2.2.2.2.1, h.2.2.2.2.2.2.2.2.2.2.2.2.2.2.2.2.2.2.1⟩

/-- C8: for a fresh email and a transporter that fails, `registerUser` throws
`Email could not be sent` without sending a response (the status is never set to
201), yet the new account and its token stay in the store, so registering the
same email again fails with `User already exists`. -/
theorem registerUser_dispatch_failure (env : Env) (req : RegisterReq) (s : Store)
    (hfresh : ∀ u ∈ s.users, u.email ≠ req.email)
    (hsend : ∀ m : MailMessage, m.to_ = req.email → env.sendMail m = false) :
    (registerUser env req s).error = some "Email could not be sent" ∧
    (registerUser env req s).res.statusCode ≠ 201 ∧
    (registerUser env req s).res.body = none ∧
    (∃ (u : User) (t : Token),
      (registerUser env req s).store.users = s.users ++ [u] ∧
      u.name = req.name ∧ u.email = req.email ∧
      (registerUser env req s).store.tokens = s.tokens ++ [t] ∧
      t.userId = u._id ∧ t.token = toHex (randomBytes env.entropy 32)) ∧
    (∀ (env2 : Env) (req2 : RegisterReq), req2.email = req.email →
      registerUser env2 req2 (registerUser env req s).store
        = fail (registerUser env req s).store 400 "User already exists") := by
  have hf := User.findOne_eq_none_of_fresh hfresh
  have hm := hsend
    { from_ := env.emailFromName ++ " <" ++ env.emailFromAddress ++ ">",
      to_ := req.email, subject := "Verify Your Account",
      text := "Please click on the following link to verify your account: " ++
        verificationUrl req s.nextId (toHex (randomBytes env.entropy 32)) } rfl
  have e : registerUser env req s =
      { store := (Token.create env
            (User.create env s req.name req.email req.password "HR Personnel").2
            s.nextId (toHex (randomBytes env.entropy 32))).2,
        res := {},
        error := some "Email could not be sent",
        mails := [(sendEmail env
          { email := req.email, subject := "Verify Your Account",
            message := "Please click on the following link to verify your account: " ++
              verificationUrl req s.nextId (toHex (randomBytes env.entropy 32)) }).1] } := by
    simp [registerUser, hf, User.create, Token.create, sendEmail, hm]
  rw [e]
  refine ⟨rfl, by simp, rfl, ⟨_, _, rfl, rfl, rfl, rfl, rfl, rfl⟩, ?_⟩
  intro env2 req2 h2
  refine registerUser_of_mem env2 req2 _ ?_
  exact ⟨(User.create env s req.name req.email req.password "HR Personnel").1,
    by simp [Token.create, User.create], h2.symm⟩

/-- C8 on a concrete store: Bob registers while the transporter is down, then
tries again. -/
theorem registerUser_dispatch_failure_witness :
    (registerUser envDown reqBob
      (storeOf (alice "HR Personnel" (some "h:secret1") true))).error
      = some "Email could not be sent" ∧
    (registerUser envOk reqBob (registerUser envDown reqBob
      (storeOf (alice "HR Personnel" (some "h:secret1") true))).store).error
      = some "User already exists" := by
  have h := registerUser_dispatch_failure envDown reqBob
    (storeOf (alice "HR Personnel" (some "h:secret1") true)) (by decide) (fun _ _ => rfl)
  exact ⟨h.1, by rw [h.2.2.2.2 envOk reqBob rfl]; rfl⟩

/-! ## Verification -/

/-- C9: when account `a` and a token record with `userId = a._id` and value `T`
exist, `verifyUser a._id T` responds 200, the stored accounts are the old ones
with `a` replaced by `a` with `isVerified` true (every other field of `a` and
every other account as before), and the stored tokens are the old ones with one
record of that `userId` and value erased (the given record when it is the only
one with that pair). -/
theorem verifyUser_success (s : Store) (a : User) (t : Token) (hwf : s.WF)
    (ha : a ∈ s.users) (ht : t ∈ s.tokens) (htu : t.userId = a._id) :
    ∃ t0 ∈ s.tokens, t0.userId = a._id ∧ t0.token = t.token ∧
      ((∀ x ∈ s.tokens, x.userId = t.userId → x.token = t.token → x = t) → t0 = t) ∧
      (verifyUser a._id t.token s).res.statusCode = 200 ∧
      (verifyUser a._id t.token s).error = none ∧
      (verifyUser a._id t.token s).res.body = some
        [("success", .atom (.bool true)),
         ("message", .atom (.str "Account verified successfully. You can now log in."))] ∧
      (verifyUser a._id t.token s).store.users =
        s.users.map (fun u => if u = a then { a with isVerified := true } else u) ∧
      (verifyUser a._id t.token s).store.tokens = s.tokens.erase t0 ∧
      (verifyUser a._id t.token s).store.nextId = s.nextId ∧
      (verifyUser a._id t.token s).mails = [] := by
  have hfind := User.findById_eq_some_of_nodup hwf.usersNodup ha
  obtain ⟨t0, hf0, hmem, hu0, htk0⟩ :=
    Token.findOne_some a._id t.token ⟨t, ht, htu, rfl⟩
  have e : verifyUser a._id t.token s =
      { store := Token.deleteOne (User.save s { a with isVerified := true }) t0,
        res := { statusCode := 200, body := some verifyJson } } := by
    simp [verifyUser, hfind, hf0]
  rw [e]
  refine ⟨t0, hmem, hu0, htk0, ?_, rfl, rfl, rfl, ?_, ?_, rfl, rfl⟩
  · intro huniq
    exact huniq t0 hmem (by rw [hu0, htu]) htk0
  · show s.users.map _ = s.users.map _
    apply List.map_congr_left
    intro u hu
    by_cases hua : u = a
    · simp [hua]
    · have : u._id ≠ a._id := fun hid => hua (User.eq_of_id_eq hwf.usersNodup ha hu hid)
      simp [hua, this]
  · exact Token.filter_id_eq_erase hwf.tokensNodup hmem

/-- C9 on a concrete store: Alice verifies with her token; Bob and his token are
untouched. -/
theorem verifyUser_success_witness :
    (verifyUser 1 "aa" storePending).res.statusCode = 200 ∧
    (verifyUser 1 "aa" storePending).store =
      { users := [alice "HR Personnel" (some "h:secret1") true, bob],
        tokens := [{ _id := 4, userId := 2, token := "bb", createdAt := 1000 }],
        nextId := 5 } := by
  obtain ⟨t0, _, _, _, _, h200, _⟩ := verifyUser_success storePending
    (alice "HR Personnel" (some "h:secret1") false)
    { _id := 3, userId := 1, token := "aa", createdAt := 1000 }
    ⟨by decide, by decide, by decide, by decide⟩ (by decide) (by decide) rfl
  exact ⟨h200, by decide⟩

/-- C10: `verifyUser` fails with 400 `Invalid link` when no account has the id,
and otherwise with 400 `Invalid or expired link` when no token record has both
that `userId` and that value (whatever else the token collection holds); in both
cases the store is unchanged and nothing is sent. -/
theorem verifyUser_failure (userId : ObjectId) (token : String) (s : Store) :
    ((∀ u ∈ s.users, u._id ≠ userId) →
      verifyUser userId token s = fail s 400 "Invalid link" ∧
      (verifyUser userId token s).store = s) ∧
    ((∃ u ∈ s.users, u._id = userId) →
      (∀ t ∈ s.tokens, ¬ (t.userId = userId ∧ t.token = token)) →
      verifyUser userId token s = fail s 400 "Invalid or expired link" ∧
      (verifyUser userId token s).store = s) := by
  constructor
  · intro h
    have e : verifyUser userId token s = fail s 400 "Invalid link" := by
      simp [verifyUser, User.findById_eq_none h]
    rw [e]
    exact ⟨rfl, rfl⟩
  · intro h hno
    obtain ⟨v, hv, hid⟩ := User.findById_some h
    have e : verifyUser userId token s = fail s 400 "Invalid or expired link" := by
      simp [verifyUser, hv, hid, Token.findOne_eq_none hno]
    rw [e]
    exact ⟨rfl, rfl⟩

/-- C10 on a concrete store: an unknown account id gives `Invalid link`; for
Alice, a value that never existed and the value of Bob's token both give
`Invalid or expired link`. -/
theorem verifyUser_failure_examples :
    verifyUser 9 "aa" storePending = fail storePending 400 "Invalid link" ∧
    verifyUser 1 "zz" storePending = fail storePending 400 "Invalid or expired link" ∧
    verifyUser 1 "bb" storePending = fail storePending 400 "Invalid or expired link" :=
  ⟨((verifyUser_failure 9 "aa" storePending).1 (by decide)).1,
   ((verifyUser_failure 1 "zz" storePending).2 (by decide) (by decide)).1,
   ((verifyUser_failure 1 "bb" storePending).2 (by decide) (by decide)).1⟩

/-! ## Lemmas for runs of several requests -/

theorem registerUser_store (env : Env) (req : RegisterReq) (s : Store)
    (hf : User.findOne s.users req.email = none) :
    (registerUser env req s).store =
      (Token.create env (User.create env s req.name req.email req.password "HR Personnel").2
        s.nextId (toHex (randomBytes env.entropy 32))).2 := by
  unfold registerUser
  simp only [hf]
  split <;> rfl

theorem verifyUser_of_found (userId : ObjectId) (token : String) (s : Store) (u : User)
    (t : Token) (hu : User.findById s.users userId = some u)
    (ht : Token.findOne s.tokens u._id token = some t) :
    verifyUser userId token s =
      { store := Token.deleteOne (User.save s { u with isVerified := true }) t,
        res := { statusCode := 200, body := some verifyJson } } := by
  simp [verifyUser, hu, ht]

theorem verifyUser_no_token (userId : ObjectId) (token : String) (s : Store)
    (h : ∃ u ∈ s.users, u._id = userId)
    (hno : ∀ t ∈ s.tokens, ¬ (t.userId = userId ∧ t.token = token)) :
    verifyUser userId token s = fail s 400 "Invalid or expired link" := by
  obtain ⟨v, hv, hid⟩ := User.findById_some h
  simp [verifyUser, hv, hid, Token.findOne_eq_none hno]

theorem verifyUser_found_of_mem (s : Store) (a : User) (t : Token) (ha : a ∈ s.users)
    (ht : t ∈ s.tokens) (htu : t.userId = a._id) :
    ∃ u t0, User.findById s.users a._id = some u ∧
      Token.findOne s.tokens u._id t.token = some t0 := by
  obtain ⟨u, hu, hid⟩ := User.findById_some ⟨a, ha, rfl⟩
  obtain ⟨t0, h0, _⟩ := Token.findOne_some a._id t.token ⟨t, ht, htu, rfl⟩
  exact ⟨u, t0, hu, by rw [hid]; exact h0⟩

/-! ## Single use and expiry of verification tokens -/

/-- C11: the token that `registerUser` generates for a new account verifies that
account once: with no operation in between, the first `verifyUser` with the new
account's id and the token's value succeeds with 200 and the second fails with 400
`Invalid or expired link`. -/
theorem verification_token_single_use (env : Env) (req : RegisterReq) (s : Store)
    (hwf : s.WF) (hrefs : ∀ t ∈ s.tokens, t.userId < s.nextId)
    (hfresh : ∀ u ∈ s.users, u.email ≠ req.email) :
    ∃ (u : User) (t : Token),
      (registerUser env req s).store.users = s.users ++ [u] ∧
      (registerUser env req s).store.tokens = s.tokens ++ [t] ∧
      u.email = req.email ∧ t.userId = u._id ∧
      (verifyUser u._id t.token (registerUser env req s).store).error = none ∧
      (verifyUser u._id t.token (registerUser env req s).store).res.statusCode = 200 ∧
      verifyUser u._id t.token
          (verifyUser u._id t.token (registerUser env req s).store).store
        = fail (verifyUser u._id t.token (registerUser env req s).store).store 400
            "Invalid or expired link" := by
  rw [registerUser_store env req s (User.findOne_eq_none_of_fresh hfresh)]
  refine ⟨(User.create env s req.name req.email req.password "HR Personnel").1,
    (Token.create env (User.create env s req.name req.email req.password "HR Personnel").2
      s.nextId (toHex (randomBytes env.entropy 32))).1, rfl, rfl, rfl, rfl, ?_⟩
  have hfb : User.findById
      (Token.create env (User.create env s req.name req.email req.password "HR Personnel").2
        s.nextId (toHex (randomBytes env.entropy 32))).2.users s.nextId
      = some (User.create env s req.name req.email req.password "HR Personnel").1 := by
    have hnone : List.find? (fun u => u._id == s.nextId) s.users = none :=
      User.findById_eq_none (fun u hu => Nat.ne_of_lt (hwf.usersLt u hu))
    simp [User.findById, Token.create, User.create, List.find?_append, hnone]
  have hft : Token.findOne
      (Token.create env (User.create env s req.name req.email req.password "HR Personnel").2
        s.nextId (toHex (randomBytes env.entropy 32))).2.tokens s.nextId
        (toHex (randomBytes env.entropy 32))
      = some (Token.create env
          (User.create env s req.name req.email req.password "HR Personnel").2
          s.nextId (toHex (randomBytes env.entropy 32))).1 := by
    have hnone : List.find? (fun t => t.userId == s.nextId &&
        t.token == toHex (randomBytes env.entropy 32)) s.tokens = none :=
      Token.findOne_eq_none (fun t ht h => Nat.ne_of_lt (hrefs t ht) h.1)
    simp [Token.findOne, Token.create, User.create, List.find?_append, hnone]
  have e := verifyUser_of_found s.nextId (toHex (randomBytes env.entropy 32)) _ _ _ hfb hft
  have e2 : verifyUser
      (User.create env s req.name req.email req.password "HR Personnel").1._id
      (Token.create env (User.create env s req.name req.email req.password "HR Personnel").2
        s.nextId (toHex (randomBytes env.entropy 32))).1.token
      (Token.create env (User.create env s req.name req.email req.password "HR Personnel").2
        s.nextId (toHex (randomBytes env.entropy 32))).2 = _ := e
  rw [e2]
  refine ⟨rfl, rfl, ?_⟩
  apply verifyUser_no_token
  · refine ⟨{ (User.create env s req.name req.email req.password "HR Personnel").1 with
        isVerified := true }, ?_, rfl⟩
    simp [Token.deleteOne, User.save, Token.create, User.create]
  · intro x hx hpair
    simp only [Token.deleteOne, User.save, Token.create, User.create, List.mem_filter,
      List.mem_append, List.mem_singleton] at hx
    rcases hx with ⟨hx | hx, hne⟩
    · exact Nat.ne_of_lt (hrefs x hx) hpair.1
    · simp [hx] at hne

/-- C11 on a concrete store: Bob registers next to Alice and verifies twice. -/
theorem verification_token_single_use_witness :
    ∃ (u : User) (t : Token),
      (registerUser envOk reqBob (storeOf (alice "HR Personnel" none true))).store.users
        = (storeOf (alice "HR Personnel" none true)).users ++ [u] ∧
      (registerUser envOk reqBob (storeOf (alice "HR Personnel" none true))).store.tokens
        = (storeOf (alice "HR Personnel" none true)).tokens ++ [t] ∧
      u.email = reqBob.email ∧ t.userId = u._id ∧
      (verifyUser u._id t.token
        (registerUser envOk reqBob (storeOf (alice "HR Personnel" none true))).store).error
        = none ∧
      (verifyUser u._id t.token (registerUser envOk reqBob
        (storeOf (alice "HR Personnel" none true))).store).res.statusCode = 200 ∧
      verifyUser u._id t.token (verifyUser u._id t.token
          (registerUser envOk reqBob (storeOf (alice "HR Personnel" none true))).store).store
        = fail (verifyUser u._id t.token (registerUser envOk reqBob
            (storeOf (alice "HR Personnel" none true))).store).store 400
            "Invalid or expired link" :=
  verification_token_single_use envOk reqBob (storeOf (alice "HR Personnel" none true))
    ⟨by decide, by decide, by decide, by decide⟩ (by decide) (by decide)

/-- C12 fails while an expired record is still stored: at time 5000000 ms the
token `aa` of account 1, created at 1000 ms, is more than 3600 s old, and
`verifyUser` accepts it with 200, since the handler never reads `createdAt`. -/
theorem verifyUser_accepts_expired_record :
    (∃ t ∈ storePending.tokens, t.userId = 1 ∧ t.token = "aa" ∧
      t.createdAt + 3600 * 1000 < 5000000) ∧
    (verifyUser 1 "aa" storePending).error = none ∧
    (verifyUser 1 "aa" storePending).res.statusCode = 200 ∧
    verifyUser 1 "aa" storePending ≠ fail storePending 400 "Invalid or expired link" := by
  decide

/-- C12 (amended): `verifyUser` accepts a token record of an existing account for
as long as the record is stored, whatever its `createdAt`; once the store's expiry
sweep has run at a time when every record with that account id and value is older
than the TTL, `verifyUser` fails with 400 `Invalid or expired link`. -/
theorem verifyUser_expired_token (now : Nat) (s : Store) (a : User) (t : Token)
    (ha : a ∈ s.users) (ht : t ∈ s.tokens) (htu : t.userId = a._id)
    (hold : ∀ x ∈ s.tokens, x.userId = a._id → x.token = t.token →
      x.createdAt + 3600 * 1000 < now) :
    (verifyUser a._id t.token s).error = none ∧
    (verifyUser a._id t.token s).res.statusCode = 200 ∧
    t ∉ (ttlSweep now s).tokens ∧
    verifyUser a._id t.token (ttlSweep now s)
      = fail (ttlSweep now s) 400 "Invalid or expired link" := by
  obtain ⟨u, t0, hu, h0⟩ := verifyUser_found_of_mem s a t ha ht htu
  rw [verifyUser_of_found a._id t.token s u t0 hu h0]
  refine ⟨rfl, rfl, ?_, ?_⟩
  · intro hmem
    simp only [ttlSweep, List.mem_filter, decide_eq_true_eq] at hmem
    have := hold t hmem.1 htu rfl
    simp only [Token.ttlMs] at hmem
    omega
  · apply verifyUser_no_token
    · exact ⟨a, ha, rfl⟩
    · intro x hx hpair
      simp only [ttlSweep, List.mem_filter, decide_eq_true_eq, Token.ttlMs] at hx
      have := hold x hx.1 hpair.1 hpair.2
      omega

/-- C12 (amended) on a concrete store: Alice's token, created at 1000 ms, is
accepted before the sweep and rejected after the sweep of time 5000000 ms. -/
theorem verifyUser_expired_token_witness :
    (verifyUser 1 "aa" storePending).error = none ∧
    verifyUser 1 "aa" (ttlSweep 5000000 storePending)
      = fail (ttlSweep 5000000 storePending) 400 "Invalid or expired link" := by
  have h := verifyUser_expired_token 5000000 storePending
    (alice "HR Personnel" (some "h:secret1") false)
    { _id := 3, userId := 1, token := "aa", createdAt := 1000 }
    (by decide) (by decide) rfl (by decide)
  exact ⟨h.1, h.2.2.2⟩

/-! ## Logout and refresh -/

/-- C13: `logoutUser` responds 200 with `message: Logged out successfully`, sets
the cookie `jwt` to the empty string with `httpOnly` and expiry at time 0, leaves
the store as it is, and so does not change what `refreshToken` answers for any
cookie. -/
theorem logoutUser_response (env : Env) (lib : Crypto) (req : RefreshReq) (s : Store) :
    (logoutUser s).res.statusCode = 200 ∧
    (logoutUser s).res.body = some [("message", .atom (.str "Logged out successfully"))] ∧
    (logoutUser s).res.cookies =
      [{ name := "jwt", value := "",
         options := { httpOnly := true, secure := false, sameSite := none,
                      maxAge := none, expires := some 0 } }] ∧
    (logoutUser s).error = none ∧
    (logoutUser s).mails = [] ∧
    (logoutUser s).store = s ∧
    refreshToken env lib req (logoutUser s).store = refreshToken env lib req s :=
  ⟨rfl, rfl, rfl, rfl, rfl, rfl, rfl⟩

/-- C13 on a concrete store: the refresh token of account 1 yields the same
access token after a logout. -/
theorem logoutUser_response_example :
    refreshToken envOk libOk ⟨some [("jwt", "good1")]⟩ (logoutUser storePending).store
      = refreshToken envOk libOk ⟨some [("jwt", "good1")]⟩ storePending ∧
    (refreshToken envOk libOk ⟨some [("jwt", "good1")]⟩
      (logoutUser storePending).store).res.body
      = some [("accessToken", .atom (.str "access.000000000000000000000001"))] :=
  ⟨(logoutUser_response envOk libOk ⟨some [("jwt", "good1")]⟩ storePending).2.2.2.2.2.2,
   by decide⟩

/-- C14: when `req.cookies` is absent, or has no `jwt` entry, or has an empty one,
`refreshToken` throws 401 `No refresh token found` out of the handler; the outcome
does not depend on the verifier or on the stored accounts, no body is sent and
nothing is thrown later. -/
theorem refreshToken_no_cookie (env : Env) (lib : Crypto) (req : RefreshReq) (s : Store)
    (h : req.cookies = none ∨
      (∃ cs, req.cookies = some cs ∧ cs.lookup "jwt" = none) ∨
      (∃ cs, req.cookies = some cs ∧ cs.lookup "jwt" = some "")) :
    refreshToken env lib req s = { toOutcome := fail s 401 "No refresh token found" } ∧
    (refreshToken env lib req s).error = some "No refresh token found" ∧
    (refreshToken env lib req s).res.statusCode = 401 ∧
    (refreshToken env lib req s).res.body = none ∧
    (refreshToken env lib req s).store = s ∧
    (refreshToken env lib req s).unhandledRejection = none := by
  have hj : truthy req.jwt = false := by
    rcases h with h | ⟨cs, h, hl⟩ | ⟨cs, h, hl⟩
    · simp [RefreshReq.jwt, h, truthy]
    · simp [RefreshReq.jwt, h, hl, truthy]
    · simp [RefreshReq.jwt, h, hl, truthy]
  have e : refreshToken env lib req s = { toOutcome := fail s 401 "No refresh token found" } := by
    simp [refreshToken, hj]
  rw [e]
  exact ⟨rfl, rfl, rfl, rfl, rfl, rfl⟩

/-- C14 on concrete requests: no cookies at all, and an empty `jwt` cookie. -/
theorem refreshToken_no_cookie_witness :
    refreshToken envOk libOk ⟨none⟩ storePending
      = { toOutcome := fail storePending 401 "No refresh token found" } ∧
    refreshToken envOk libOk ⟨some [("sid", "1"), ("jwt", "")]⟩ storePending
      = { toOutcome := fail storePending 401 "No refresh token found" } :=
  ⟨(refreshToken_no_cookie envOk libOk ⟨none⟩ storePending (Or.inl rfl)).1,
   (refreshToken_no_cookie envOk libOk ⟨some [("sid", "1"), ("jwt", "")]⟩ storePending
      (Or.inr (Or.inr ⟨[("sid", "1"), ("jwt", "")], rfl, by decide⟩))).1⟩

/-- C15 (what the code does): for a non-empty `jwt` cookie that fails verification,
for whichever reason, `refreshToken` sets the status to 403 and throws `Invalid
refresh token` inside the callback nobody awaits: the handler itself throws
nothing, so nothing reaches the error middleware, no body is sent and no access
token is issued; the error surfaces as an unhandled rejection. -/
theorem refreshToken_invalid_token (env : Env) (lib : Crypto) (req : RefreshReq)
    (s : Store) (c : String) (e : JwtError) (hc : req.jwt = some c) (hne : c ≠ "")
    (hv : lib.jwtVerify c = .error e) :
    (refreshToken env lib req s).error = none ∧
    (refreshToken env lib req s).res.body = none ∧
    (refreshToken env lib req s).res.statusCode = 403 ∧
    (refreshToken env lib req s).res.cookies = [] ∧
    (refreshToken env lib req s).store = s ∧
    (refreshToken env lib req s).unhandledRejection = some "Invalid refresh token" := by
  have e : refreshToken env lib req s =
      { store := s, res := { statusCode := 403 },
        unhandledRejection := some "Invalid refresh token" } := by
    simp [refreshToken, hc, truthy, hne, hv]
  rw [e]
  exact ⟨rfl, rfl, rfl, rfl, rfl, rfl⟩

/-- C15 at a wrongly signed cookie: no error reaches the error middleware and no
response is sent. -/
theorem refreshToken_invalid_token_witness :
    (refreshToken envOk libOk ⟨some [("jwt", "forged")]⟩ storePending).error = none ∧
    (refreshToken envOk libOk ⟨some [("jwt", "forged")]⟩ storePending).res.body = none ∧
    (refreshToken envOk libOk ⟨some [("jwt", "forged")]⟩ storePending).unhandledRejection
      = some "Invalid refresh token" := by
  have h := refreshToken_invalid_token envOk libOk ⟨some [("jwt", "forged")]⟩ storePending
    "forged" .signatureInvalid rfl (by decide) rfl
  exact ⟨h.1, h.2.1, h.2.2.2.2.2⟩

/-- C16 (what the code does): for a `jwt` cookie that verifies with subject id `u`,
when an account with id `u` exists `refreshToken` sends a body holding only
`accessToken`, issued for `u`, sets no cookie and leaves the store as it is; when
no such account exists it sets the status to 401 and throws `User not found`
inside the callback nobody awaits, so no error reaches the error middleware and no
response is sent. -/
theorem refreshToken_verified (env : Env) (lib : Crypto) (req : RefreshReq)
    (s : Store) (c : String) (u : ObjectId) (hc : req.jwt = some c) (hne : c ≠ "")
    (hv : lib.jwtVerify c = .ok u) :
    ((∃ a ∈ s.users, a._id = u) →
      refreshToken env lib req s =
        { store := s,
          res := { statusCode := 200, cookies := [],
                   body := some [("accessToken", .atom (.str (env.generateToken u)))] },
          error := none, mails := [], unhandledRejection := none }) ∧
    ((∀ a ∈ s.users, a._id ≠ u) →
      refreshToken env lib req s =
        { store := s, res := { statusCode := 401, cookies := [], body := none },
          error := none, mails := [], unhandledRejection := some "User not found" }) := by
  constructor
  · intro h
    obtain ⟨v, hf, hid⟩ := User.findById_some h
    simp [refreshToken, hc, truthy, hne, hv, hf, hid]
  · intro h
    simp [refreshToken, hc, truthy, hne, hv, User.findById_eq_none h]

/-- C16 at concrete cookies: the token of account 1 yields an access token, the
token of the missing account 9 yields no response. -/
theorem refreshToken_verified_witness :
    (refreshToken envOk libOk ⟨some [("jwt", "good1")]⟩ storePending).res.body
      = some [("accessToken", .atom (.str (envOk.generateToken 1)))] ∧
    (refreshToken envOk libOk ⟨some [("jwt", "good9")]⟩ storePending).error = none ∧
    (refreshToken envOk libOk ⟨some [("jwt", "good9")]⟩ storePending).res.body = none ∧
    (refreshToken envOk libOk ⟨some [("jwt", "good9")]⟩ storePending).unhandledRejection
      = some "User not found" := by
  have h1 := (refreshToken_verified envOk libOk ⟨some [("jwt", "good1")]⟩ storePending
    "good1" 1 rfl (by decide) rfl).1 ⟨alice "HR Personnel" (some "h:secret1") false,
      by decide, rfl⟩
  have h9 := (refreshToken_verified envOk libOk ⟨some [("jwt", "good9")]⟩ storePending
    "good9" 9 rfl (by decide) rfl).2 (by decide)
  rw [h1, h9]
  exact ⟨rfl, rfl, rfl, rfl⟩

/-! ## Password reset request -/

theorem toyDigest_length (x : String) : (toyDigest x).length = 64 := by
  simp only [toyDigest, String.length, List.length_take, List.length_append,
    List.length_replicate, List.length_reverse]
  omega

theorem User.save_users_eq (s : Store) (hnd : (s.users.map (fun u => u._id)).Nodup)
    (a v : User) (ha : a ∈ s.users) (hid : v._id = a._id) :
    (User.save s v).users = s.users.map (fun u => if u = a then v else u) := by
  show s.users.map _ = s.users.map _
  apply List.map_congr_left
  intro u hu
  by_cases hua : u = a
  · simp [hua, hid]
  · have : u._id ≠ a._id := fun h => hua (User.eq_of_id_eq hnd ha hu h)
    simp [hua, hid, this]

theorem User.save_save (s : Store) (v w : User) (hid : w._id = v._id) :
    User.save (User.save s v) w = User.save s w := by
  simp only [User.save, List.map_map, hid]
  congr 1
  apply List.map_congr_left
  intro u _
  by_cases h : u._id = v._id <;> simp [h]

theorem forgotPassword_of_found (env : Env) (lib : Crypto) (req : ForgotReq) (s : Store)
    (a : User) (hf : User.findOne s.users req.email = some a) :
    forgotPassword env lib req s =
      if env.sendMail
          { from_ := env.emailFromName ++ " <" ++ env.emailFromAddress ++ ">",
            to_ := a.email, subject := "Password Reset Request",
            text := resetMessage (resetUrl req (toHex (randomBytes env.entropy 20))) } then
        { store := User.save s
            { a with resetPasswordToken := some (lib.sha256 (toHex (randomBytes env.entropy 20))),
                     resetPasswordExpire := some (env.now + 600000) },
          res := { statusCode := 200,
                   body := some [("success", .atom (.bool true)),
                                 ("message", .atom (.str "Password reset email sent"))] },
          mails := [{ from_ := env.emailFromName ++ " <" ++ env.emailFromAddress ++ ">",
                      to_ := a.email, subject := "Password Reset Request",
                      text := resetMessage
                        (resetUrl req (toHex (randomBytes env.entropy 20))) }] }
      else
        { store := User.save s { a with resetPasswordToken := none, resetPasswordExpire := none },
          res := { statusCode := 500 }, error := some "Email could not be sent",
          mails := [{ from_ := env.emailFromName ++ " <" ++ env.emailFromAddress ++ ">",
                      to_ := a.email, subject := "Password Reset Request",
                      text := resetMessage
                        (resetUrl req (toHex (randomBytes env.entropy 20))) }] } := by
  unfold forgotPassword
  simp only [hf, sendEmail]
  split_ifs with h
  · rfl
  · show Outcome.mk (User.save (User.save s _) _) _ _ _ = _
    rw [User.save_save]
    rfl

/-- C17: for an email that matches no account `forgotPassword` fails with 404
`User not found`, hands nothing to the transporter and returns the store as it
was. -/
theorem forgotPassword_unknown_email (env : Env) (lib : Crypto) (req : ForgotReq)
    (s : Store) (h : ∀ u ∈ s.users, u.email ≠ req.email) :
    forgotPassword env lib req s = fail s 404 "User not found" ∧
    (forgotPassword env lib req s).error = some "User not found" ∧
    (forgotPassword env lib req s).res.statusCode = 404 ∧
    (forgotPassword env lib req s).res.body = none ∧
    (forgotPassword env lib req s).mails = [] ∧
    (forgotPassword env lib req s).store = s := by
  have e : forgotPassword env lib req s = fail s 404 "User not found" := by
    simp [forgotPassword, User.findOne_eq_none_of_fresh h]
  rw [e]
  exact ⟨rfl, rfl, rfl, rfl, rfl, rfl⟩

/-- C17 on a concrete store: a reset is requested for an unknown address. -/
theorem forgotPassword_unknown_email_witness :
    forgotPassword envOk libOk ⟨"nobody@x.com", "http", "localhost"⟩ storePending
      = fail storePending 404 "User not found" :=
  (forgotPassword_unknown_email envOk libOk ⟨"nobody@x.com", "http", "localhost"⟩
    storePending (by decide)).1

/-- C18: for an existing account and a transporter that delivers, `forgotPassword`
at time `env.now` draws `r`, the 40-character hex encoding of 20 random bytes,
stores on the account `resetPasswordToken = sha256 r` and `resetPasswordExpire =
env.now + 600000`, changes nothing else in the store, responds 200 and hands the
transporter one message whose link ends in `/api/auth/resetpassword/r`. What is
stored is the digest, which differs from `r`, and the message is the same whatever
the digest function is. -/
theorem forgotPassword_success (env : Env) (lib : Crypto) (req : ForgotReq) (s : Store)
    (a : User) (hwf : s.WF) (ha : a ∈ s.users) (he : a.email = req.email)
    (huniq : ∀ v ∈ s.users, v.email = a.email → v = a)
    (hsend : ∀ m : MailMessage, m.to_ = a.email → env.sendMail m = true)
    (hsha : ∀ x, (lib.sha256 x).length = 64) :
    ∃ (r : String) (m : MailMessage),
      r = toHex (randomBytes env.entropy 20) ∧ r.length = 40 ∧
      (∀ c ∈ r.data, c ∈ "0123456789abcdef".data) ∧
      (forgotPassword env lib req s).store.users =
        s.users.map (fun u => if u = a then
          { a with resetPasswordToken := some (lib.sha256 r),
                   resetPasswordExpire := some (env.now + 600000) } else u) ∧
      (forgotPassword env lib req s).store.tokens = s.tokens ∧
      (forgotPassword env lib req s).store.nextId = s.nextId ∧
      lib.sha256 r ≠ r ∧
      (forgotPassword env lib req s).error = none ∧
      (forgotPassword env lib req s).res.statusCode = 200 ∧
      (forgotPassword env lib req s).res.body = some
        [("success", .atom (.bool true)),
         ("message", .atom (.str "Password reset email sent"))] ∧
      (forgotPassword env lib req s).mails = [m] ∧
      m.to_ = a.email ∧ m.subject = "Password Reset Request" ∧
      m.text = "You are receiving this email because you (or someone else) has requested a password reset. Please click on the following link to reset your password: \n\n " ++
        (req.protocol ++ "://" ++ req.host ++ "/api/auth/resetpassword/" ++ r) ++
        " \n\n This link will expire in 10 minutes." ∧
      (∀ lib2 : Crypto,
        (forgotPassword env lib2 req s).mails = (forgotPassword env lib req s).mails) := by
  have hf : User.findOne s.users req.email = some a := by
    rw [← he]; exact User.findOne_eq_some_of_unique ha huniq
  have hm := hsend
    { from_ := env.emailFromName ++ " <" ++ env.emailFromAddress ++ ">",
      to_ := a.email, subject := "Password Reset Request",
      text := resetMessage (resetUrl req (toHex (randomBytes env.entropy 20))) } rfl
  have hlib : ∀ lib2 : Crypto, (forgotPassword env lib2 req s).mails =
      [{ from_ := env.emailFromName ++ " <" ++ env.emailFromAddress ++ ">",
         to_ := a.email, subject := "Password Reset Request",
         text := resetMessage (resetUrl req (toHex (randomBytes env.entropy 20))) }] := by
    intro lib2
    rw [forgotPassword_of_found env lib2 req s a hf, if_pos hm]
  have hmails := hlib lib
  rw [forgotPassword_of_found env lib req s a hf, if_pos hm] at hmails ⊢
  refine ⟨_, _, rfl, toHex_randomBytes_length env.entropy 20, hexChars_mem _, ?_, rfl, rfl,
    ?_, rfl, rfl, rfl, rfl, rfl, rfl, rfl, ?_⟩
  · exact User.save_users_eq s hwf.usersNodup a _ ha rfl
  · intro h
    have h64 := hsha (toHex (randomBytes env.entropy 20))
    rw [h, toHex_randomBytes_length] at h64
    omega
  · intro lib2
    rw [hlib lib2]

/-- C18 on a concrete store: Alice asks for a reset at time 1000 ms. -/
theorem forgotPassword_success_witness :
    (forgotPassword envOk libOk reqForgot storePending).error = none ∧
    (forgotPassword envOk libOk reqForgot storePending).store.users =
      [{ alice "HR Personnel" (some "h:secret1") false with
           resetPasswordToken := some (toyDigest "0000000000000000000000000000000000000000"),
           resetPasswordExpire := some 601000 }, bob] := by
  obtain ⟨r, m, hr, _, _, hu, _, _, _, herr, _⟩ :=
    forgotPassword_success envOk libOk reqForgot storePending
      (alice "HR Personnel" (some "h:secret1") false)
      ⟨by decide, by decide, by decide, by decide⟩ (by decide) rfl (by decide)
      (fun _ _ => rfl)
      toyDigest_length
  exact ⟨herr, by decide⟩

/-- C19: for an existing account and a transporter that fails, `forgotPassword`
fails with 500 `Email could not be sent`; in the resulting store that account has
both reset fields absent and every other field, every other account and every token
as before. No lookup of `resetPassword` returns that account, and when no other
account holds the digest of the value drawn in this request, `resetPassword` with
that value fails with 400 `Invalid or expired token` at any time. -/
theorem forgotPassword_dispatch_failure (env : Env) (lib : Crypto) (req : ForgotReq)
    (s : Store) (a : User) (hwf : s.WF) (ha : a ∈ s.users) (he : a.email = req.email)
    (huniq : ∀ v ∈ s.users, v.email = a.email → v = a)
    (hsend : ∀ m : MailMessage, m.to_ = a.email → env.sendMail m = false) :
    (forgotPassword env lib req s).error = some "Email could not be sent" ∧
    (forgotPassword env lib req s).res.statusCode = 500 ∧
    (forgotPassword env lib req s).res.body = none ∧
    (forgotPassword env lib req s).store.users =
      s.users.map (fun u => if u = a then
        { a with resetPasswordToken := none, resetPasswordExpire := none } else u) ∧
    (forgotPassword env lib req s).store.tokens = s.tokens ∧
    (forgotPassword env lib req s).store.nextId = s.nextId ∧
    (∀ (d : String) (now : Nat) (v : User),
      User.findOneByReset (forgotPassword env lib req s).store.users d now = some v →
      v._id ≠ a._id) ∧
    ((∀ u ∈ s.users, u ≠ a →
        u.resetPasswordToken ≠ some (lib.sha256 (toHex (randomBytes env.entropy 20)))) →
      ∀ (env2 : Env) (password : String),
        resetPassword env2 lib ⟨toHex (randomBytes env.entropy 20), password⟩
            (forgotPassword env lib req s).store
          = fail (forgotPassword env lib req s).store 400 "Invalid or expired token") := by
  have hf : User.findOne s.users req.email = some a := by
    rw [← he]; exact User.findOne_eq_some_of_unique ha huniq
  have hm := hsend
    { from_ := env.emailFromName ++ " <" ++ env.emailFromAddress ++ ">",
      to_ := a.email, subject := "Password Reset Request",
      text := resetMessage (resetUrl req (toHex (randomBytes env.entropy 20))) } rfl
  have hu : (User.save s
        { a with resetPasswordToken := none, resetPasswordExpire := none }).users =
      s.users.map (fun u => if u = a then
        { a with resetPasswordToken := none, resetPasswordExpire := none } else u) :=
    User.save_users_eq s hwf.usersNodup a _ ha rfl
  have hmem : ∀ v ∈ (User.save s
        { a with resetPasswordToken := none, resetPasswordExpire := none }).users,
      (v.resetPasswordToken = none ∧ v._id = a._id) ∨ (v ∈ s.users ∧ v ≠ a) := by
    intro v hv
    rw [hu, List.mem_map] at hv
    obtain ⟨u, hus, huv⟩ := hv
    by_cases hua : u = a
    · left
      rw [if_pos hua] at huv
      rw [← huv]
      exact ⟨rfl, rfl⟩
    · right
      rw [if_neg hua] at huv
      rw [← huv]
      exact ⟨hus, hua⟩
  rw [forgotPassword_of_found env lib req s a hf, if_neg (by simp [hm])]
  refine ⟨rfl, rfl, rfl, hu, rfl, rfl, ?_, ?_⟩
  · intro d now v hv
    have hp := List.find?_some hv
    have hin := List.mem_of_find?_eq_some hv
    rcases hmem v hin with ⟨hnone, _⟩ | ⟨hvs, hva⟩
    · simp [hnone] at hp
    · exact fun hid => hva (User.eq_of_id_eq hwf.usersNodup ha hvs hid)
  · intro hother env2 password
    have hnone : User.findOneByReset (User.save s
          { a with resetPasswordToken := none, resetPasswordExpire := none }).users
        (lib.sha256 (toHex (randomBytes env.entropy 20))) env2.now = none := by
      unfold User.findOneByReset
      rw [List.find?_eq_none]
      intro v hv
      rcases hmem v hv with ⟨hnone, _⟩ | ⟨hvs, hva⟩
      · simp [hnone]
      · simp [hother v hvs hva]
    simp [resetPassword, hnone]

/-- C19 on a concrete store: Alice asks for a reset while the transporter is down;
her reset fields are absent afterwards and the drawn value is refused. -/
theorem forgotPassword_dispatch_failure_witness :
    (forgotPassword envDown libOk reqForgot storePending).error
      = some "Email could not be sent" ∧
    (forgotPassword envDown libOk reqForgot storePending).store = storePending ∧
    (resetPassword envOk libOk ⟨"0000000000000000000000000000000000000000", "new"⟩
      (forgotPassword envDown libOk reqForgot storePending).store).error
      = some "Invalid or expired token" := by
  have h := forgotPassword_dispatch_failure envDown libOk reqForgot storePending
    (alice "HR Personnel" (some "h:secret1") false)
    ⟨by decide, by decide, by decide, by decide⟩ (by decide) rfl (by decide)
    (fun _ _ => rfl)
  exact ⟨h.1, by decide, by decide⟩

/-! ## The reset fields along runs -/

theorem User.save_forall (P : User → Prop) (s : Store) (v : User)
    (h : ∀ u ∈ s.users, P u) (hv : P v) : ∀ u ∈ (User.save s v).users, P u := by
  intro u hu
  simp only [User.save, List.mem_map] at hu
  obtain ⟨w, hw, hwu⟩ := hu
  by_cases hid : w._id = v._id
  · rw [if_pos hid] at hwu
    rw [← hwu]; exact hv
  · rw [if_neg hid] at hwu
    rw [← hwu]; exact h w hw

theorem loginUser_store (env : Env) (body : LoginBody) (s : Store) :
    (loginUser env body s).store = s := by
  unfold loginUser
  split
  · rfl
  · split_ifs <;> rfl

theorem loginCandidate_store (env : Env) (body : LoginBody) (s : Store) :
    (loginCandidate env body s).store = s := by
  unfold loginCandidate
  split
  · rfl
  · split_ifs <;> rfl

theorem refreshToken_store (env : Env) (lib : Crypto) (req : RefreshReq) (s : Store) :
    (refreshToken env lib req s).store = s := by
  unfold refreshToken
  split_ifs
  · rfl
  · split
    · rfl
    · split <;> rfl

theorem registerUser_resetPaired (env : Env) (req : RegisterReq) (s : Store)
    (h : ∀ u ∈ s.users, u.resetPaired) :
    ∀ u ∈ (registerUser env req s).store.users, u.resetPaired := by
  cases hf : User.findOne s.users req.email with
  | some v =>
    have e : registerUser env req s = fail s 400 "User already exists" := by
      simp [registerUser, hf]
    rw [e]; exact h
  | none =>
    rw [registerUser_store env req s hf]
    intro u hu
    simp only [Token.create, User.create, List.mem_append, List.mem_singleton] at hu
    rcases hu with hu | hu
    · exact h u hu
    · rw [hu]; rfl

theorem verifyUser_resetPaired (userId : ObjectId) (token : String) (s : Store)
    (h : ∀ u ∈ s.users, u.resetPaired) :
    ∀ u ∈ (verifyUser userId token s).store.users, u.resetPaired := by
  cases hu : User.findById s.users userId with
  | none =>
    have e : verifyUser userId token s = fail s 400 "Invalid link" := by
      simp [verifyUser, hu]
    rw [e]; exact h
  | some user =>
    cases ht : Token.findOne s.tokens user._id token with
    | none =>
      have e : verifyUser userId token s = fail s 400 "Invalid or expired link" := by
        simp [verifyUser, hu, ht]
      rw [e]; exact h
    | some tokenDoc =>
      have hmem : user ∈ s.users := List.mem_of_find?_eq_some hu
      rw [verifyUser_of_found userId token s user tokenDoc hu ht]
      exact User.save_forall User.resetPaired s _ h (h user hmem)

theorem forgotPassword_resetPaired (env : Env) (lib : Crypto) (req : ForgotReq) (s : Store)
    (h : ∀ u ∈ s.users, u.resetPaired) :
    ∀ u ∈ (forgotPassword env lib req s).store.users, u.resetPaired := by
  cases hf : User.findOne s.users req.email with
  | none =>
    have e : forgotPassword env lib req s = fail s 404 "User not found" := by
      simp [forgotPassword, hf]
    rw [e]; exact h
  | some a =>
    rw [forgotPassword_of_found env lib req s a hf]
    split_ifs
    · exact User.save_forall User.resetPaired s _ h rfl
    · exact User.save_forall User.resetPaired s _ h rfl

theorem resetPassword_resetPaired (env : Env) (lib : Crypto) (req : ResetReq) (s : Store)
    (h : ∀ u ∈ s.users, u.resetPaired) :
    ∀ u ∈ (resetPassword env lib req s).store.users, u.resetPaired := by
  unfold resetPassword
  cases User.findOneByReset s.users (lib.sha256 req.resettoken) env.now with
  | none => exact h
  | some user => exact User.save_forall User.resetPaired s _ h rfl

theorem Op.step_resetPaired (op : Op) (s : Store) (h : ∀ u ∈ s.users, u.resetPaired) :
    ∀ u ∈ (op.step s).users, u.resetPaired := by
  cases op with
  | register env req => exact registerUser_resetPaired env req s h
  | verify userId token => exact verifyUser_resetPaired userId token s h
  | login env body => simpa [Op.step, loginUser_store] using h
  | loginCandidate env body => simpa [Op.step, loginCandidate_store] using h
  | logout => exact h
  | refresh env lib req => simpa [Op.step, refreshToken_store] using h
  | forgotPassword env lib req => exact forgotPassword_resetPaired env lib req s h
  | resetPassword env lib req => exact resetPassword_resetPaired env lib req s h
  | sweep now => exact h

theorem run_resetPaired (ops : List Op) (s : Store) (h : ∀ u ∈ s.users, u.resetPaired) :
    ∀ u ∈ (run ops s).users, u.resetPaired := by
  induction ops generalizing s with
  | nil => exact h
  | cons op ops ih => exact ih (op.step s) (Op.step_resetPaired op s h)

/-- C20: starting from a store in which every account has both reset fields
absent, after any sequence of operations (register, verify, login, candidate login,
logout, refresh, password-reset request with the transporter delivering or failing,
password reset, and passes of the expiry sweep) every account has the two reset
fields both absent or both present. -/
theorem reset_fields_paired (s : Store) (ops : List Op)
    (h0 : ∀ u ∈ s.users, u.resetPasswordToken = none ∧ u.resetPasswordExpire = none) :
    ∀ u ∈ (run ops s).users,
      (u.resetPasswordToken = none ∧ u.resetPasswordExpire = none) ∨
      (∃ d e, u.resetPasswordToken = some d ∧ u.resetPasswordExpire = some e) := by
  intro u hu
  have hp : u.resetPaired :=
    run_resetPaired ops s (fun v hv => by
      have := h0 v hv
      simp [User.resetPaired, this.1, this.2]) u hu
  unfold User.resetPaired at hp
  cases ht : u.resetPasswordToken with
  | none =>
    cases he : u.resetPasswordExpire with
    | none => exact Or.inl ⟨rfl, rfl⟩
    | some e => rw [ht, he] at hp; simp at hp
  | some d =>
    cases he : u.resetPasswordExpire with
    | none => rw [ht, he] at hp; simp at hp
    | some e => exact Or.inr ⟨d, e, rfl, rfl⟩

/-- C20 on a concrete run from Alice's store: Bob registers, Alice asks for a
reset that is delivered, Bob asks for one that is not, a wrong reset value is
tried, Alice logs out. Alice's account is then in the store with both reset fields
present. -/
theorem reset_fields_paired_witness :
    { alice "HR Personnel" (some "h:secret1") true with
        resetPasswordToken := some (toyDigest "0000000000000000000000000000000000000000"),
        resetPasswordExpire := some 601000 } ∈
      (run [.register envOk reqBob, .forgotPassword envOk libOk reqForgot,
        .forgotPassword envDown libOk ⟨"b@x.com", "http", "localhost"⟩,
        .resetPassword envOk libOk ⟨"ff", "new"⟩, .logout]
        (storeOf (alice "HR Personnel" (some "h:secret1") true))).users ∧
    (((some (toyDigest "0000000000000000000000000000000000000000") : Option String) = none ∧
        (some 601000 : Option Nat) = none) ∨
      (∃ d e, some (toyDigest "0000000000000000000000000000000000000000") = some d ∧
        some 601000 = some e)) :=
  ⟨by decide,
   reset_fields_paired (storeOf (alice "HR Personnel" (some "h:secret1") true))
    [.register envOk reqBob, .forgotPassword envOk libOk reqForgot,
      .forgotPassword envDown libOk ⟨"b@x.com", "http", "localhost"⟩,
      .resetPassword envOk libOk ⟨"ff", "new"⟩, .logout]
    (by decide)
    { alice "HR Personnel" (some "h:secret1") true with
        resetPasswordToken := some (toyDigest "0000000000000000000000000000000000000000"),
        resetPasswordExpire := some 601000 }
    (by decide)⟩

/-! ## Password reset -/

theorem find?_eq_some_of_unique {α : Type} (p : α → Bool) (l : List α) (x : α)
    (hx : x ∈ l) (hp : p x = true) (huniq : ∀ y ∈ l, p y = true → y = x) :
    l.find? p = some x := by
  cases h : l.find? p with
  | none =>
    have := List.find?_eq_none.mp h x hx
    simp [hp] at this
  | some y =>
    rw [huniq y (List.mem_of_find?_eq_some h) (List.find?_some h)]

/-- The test of the reset lookup on one account, as a proposition. -/
theorem User.resetMatch_iff (u : User) (digest : String) (now : Nat) :
    ((u.resetPasswordToken == some digest &&
      (match u.resetPasswordExpire with
       | some e => decide (now < e)
       | none => false)) = true) ↔
    (u.resetPasswordToken = some digest ∧ ∃ e, u.resetPasswordExpire = some e ∧ now < e) := by
  cases he : u.resetPasswordExpire with
  | none => simp
  | some e => simp

theorem User.findOneByReset_eq_none_iff (users : List User) (digest : String) (now : Nat) :
    User.findOneByReset users digest now = none ↔
    ¬ ∃ u ∈ users, u.resetPasswordToken = some digest ∧
      ∃ e, u.resetPasswordExpire = some e ∧ now < e := by
  unfold User.findOneByReset
  rw [List.find?_eq_none]
  constructor
  · rintro h ⟨u, hu, hm⟩
    exact h u hu ((User.resetMatch_iff u digest now).mpr hm)
  · intro h u hu hm
    exact h ⟨u, hu, (User.resetMatch_iff u digest now).mp hm⟩

theorem User.findOneByReset_some {users : List User} {digest : String} {now : Nat}
    {a : User} (h : User.findOneByReset users digest now = some a) :
    a ∈ users ∧ a.resetPasswordToken = some digest ∧
      ∃ e, a.resetPasswordExpire = some e ∧ now < e := by
  unfold User.findOneByReset at h
  have hp := List.find?_some h
  exact ⟨List.mem_of_find?_eq_some h, (User.resetMatch_iff a digest now).mp hp⟩

theorem resetPassword_of_none (env : Env) (lib : Crypto) (req : ResetReq) (s : Store)
    (h : User.findOneByReset s.users (lib.sha256 req.resettoken) env.now = none) :
    resetPassword env lib req s = fail s 400 "Invalid or expired token" := by
  simp [resetPassword, h]

theorem resetPassword_of_found (env : Env) (lib : Crypto) (req : ResetReq) (s : Store)
    (a : User) (h : User.findOneByReset s.users (lib.sha256 req.resettoken) env.now = some a) :
    resetPassword env lib req s =
      { store := User.save s { a with password := some (env.hash req.password), resetPasswordToken := none, resetPasswordExpire := none },
        res := { statusCode := 200,
                 body := some [("success", .atom (.bool true)),
                               ("message", .atom (.str "Password updated successfully"))] } } := by
  simp [resetPassword, h]

theorem User.mem_save (s : Store) (hnd : (s.users.map (fun u => u._id)).Nodup)
    (a v : User) (ha : a ∈ s.users) (hid : v._id = a._id) :
    ∀ u ∈ (User.save s v).users, u = v ∨ (u ∈ s.users ∧ u ≠ a) := by
  intro u hu
  rw [User.save_users_eq s hnd a v ha hid, List.mem_map] at hu
  obtain ⟨w, hw, hwu⟩ := hu
  by_cases hwa : w = a
  · rw [if_pos hwa] at hwu
    exact Or.inl hwu.symm
  · rw [if_neg hwa] at hwu
    rw [← hwu]
    exact Or.inr ⟨hw, hwa⟩

theorem User.mem_save_self (s : Store) (a v : User) (ha : a ∈ s.users)
    (hid : v._id = a._id) : v ∈ (User.save s v).users := by
  simp only [User.save, List.mem_map]
  exact ⟨a, ha, by simp [hid]⟩

/-- C21: `resetPassword` at time `env.now` succeeds exactly when some account holds
`sha256(resettoken)` as its reset digest with an expiry strictly after `env.now`;
otherwise (no such digest, or the time is at or past the stored expiry) it fails
with 400 `Invalid or expired token` and returns the store, password hashes
included, as it was. -/
theorem resetPassword_succeeds_iff (env : Env) (lib : Crypto) (req : ResetReq) (s : Store) :
    ((resetPassword env lib req s).error = none ↔
      ∃ u ∈ s.users, u.resetPasswordToken = some (lib.sha256 req.resettoken) ∧
        ∃ e, u.resetPasswordExpire = some e ∧ env.now < e) ∧
    ((resetPassword env lib req s).error = none →
      (resetPassword env lib req s).res.statusCode = 200) ∧
    ((¬ ∃ u ∈ s.users, u.resetPasswordToken = some (lib.sha256 req.resettoken) ∧
        ∃ e, u.resetPasswordExpire = some e ∧ env.now < e) →
      resetPassword env lib req s = fail s 400 "Invalid or expired token" ∧
      (resetPassword env lib req s).store = s) := by
  cases hf : User.findOneByReset s.users (lib.sha256 req.resettoken) env.now with
  | none =>
    have hno := (User.findOneByReset_eq_none_iff _ _ _).mp hf
    rw [resetPassword_of_none env lib req s hf]
    refine ⟨⟨fun h => by simp [fail] at h, fun h => absurd h hno⟩,
      fun h => by simp [fail] at h, fun _ => ⟨rfl, rfl⟩⟩
  | some a =>
    have hs := User.findOneByReset_some hf
    rw [resetPassword_of_found env lib req s a hf]
    exact ⟨⟨fun _ => ⟨a, hs.1, hs.2⟩, fun _ => rfl⟩, fun _ => rfl,
      fun h => absurd ⟨a, hs.1, hs.2⟩ h⟩

/-- C21 on a concrete store: Alice holds the digest of `r1` with expiry 601000 ms.
The value is accepted at 600999 ms and refused at exactly 601000 ms, and a wrong
value is refused, the store being returned unchanged. -/
theorem resetPassword_succeeds_iff_examples :
    (resetPassword { envOk with now := 600999 } libOk ⟨"r1", "new"⟩
      (storeOf aliceReset)).error = none ∧
    resetPassword { envOk with now := 601000 } libOk ⟨"r1", "new"⟩ (storeOf aliceReset)
      = fail (storeOf aliceReset) 400 "Invalid or expired token" ∧
    resetPassword { envOk with now := 1000 } libOk ⟨"r2", "new"⟩ (storeOf aliceReset)
      = fail (storeOf aliceReset) 400 "Invalid or expired token" :=
  ⟨(resetPassword_succeeds_iff { envOk with now := 600999 } libOk ⟨"r1", "new"⟩
      (storeOf aliceReset)).1.mpr ⟨aliceReset, by decide, by decide, 601000, rfl, by decide⟩,
   ((resetPassword_succeeds_iff { envOk with now := 601000 } libOk ⟨"r1", "new"⟩
      (storeOf aliceReset)).2.2 (by decide)).1,
   ((resetPassword_succeeds_iff { envOk with now := 1000 } libOk ⟨"r2", "new"⟩
      (storeOf aliceReset)).2.2 (by decide)).1⟩

/-- C22: on a successful `resetPassword` the stored accounts are the old ones with
exactly the matched account replaced: its password becomes the hash of the new
password and both reset fields are cleared, its id, name, email, position and
`isVerified` stay; every other account, every token and the id generator are as
before. -/
theorem resetPassword_success_frame (env : Env) (lib : Crypto) (req : ResetReq) (s : Store)
    (hwf : s.WF) (hok : (resetPassword env lib req s).error = none) :
    ∃ a ∈ s.users, a.resetPasswordToken = some (lib.sha256 req.resettoken) ∧
      (∃ e, a.resetPasswordExpire = some e ∧ env.now < e) ∧
      (resetPassword env lib req s).store.users =
        s.users.map (fun u => if u = a then
          { _id := a._id, name := a.name, email := a.email, position := a.position,
            password := some (env.hash req.password), isVerified := a.isVerified,
            resetPasswordToken := none, resetPasswordExpire := none } else u) ∧
      (resetPassword env lib req s).store.tokens = s.tokens ∧
      (resetPassword env lib req s).store.nextId = s.nextId ∧
      (resetPassword env lib req s).res.statusCode = 200 ∧
      (resetPassword env lib req s).res.body = some
        [("success", .atom (.bool true)),
         ("message", .atom (.str "Password updated successfully"))] := by
  cases hf : User.findOneByReset s.users (lib.sha256 req.resettoken) env.now with
  | none =>
    rw [resetPassword_of_none env lib req s hf] at hok
    simp [fail] at hok
  | some a =>
    have hs := User.findOneByReset_some hf
    rw [resetPassword_of_found env lib req s a hf]
    exact ⟨a, hs.1, hs.2.1, hs.2.2, User.save_users_eq s hwf.usersNodup a _ hs.1 rfl,
      rfl, rfl, rfl, rfl⟩

/-- C22 on a concrete store: Alice resets her password with `r1`; Bob and the
tokens are untouched. -/
theorem resetPassword_success_frame_witness :
    (resetPassword envOk libOk ⟨"r1", "new"⟩
      { users := [aliceReset, bob], tokens := storePending.tokens, nextId := 5 }).store
      = { users := [alice "HR Personnel" (some "h:new") true, bob],
          tokens := storePending.tokens, nextId := 5 } := by
  obtain ⟨a, _, _, _, hu, ht, hn, _⟩ := resetPassword_success_frame envOk libOk ⟨"r1", "new"⟩
    { users := [aliceReset, bob], tokens := storePending.tokens, nextId := 5 }
    ⟨by decide, by decide, by decide, by decide⟩ (by decide)
  decide

/-- C23: after a successful `forgotPassword` for account `a` at time `env.now`
that dispatched the value `r` (no other account holding its digest), a
`resetPassword` with `r` and a new password `N` at any time before `env.now +
600000` succeeds, stores the hash of `N` as `a`'s password and clears `a`'s reset
fields, everything else as before the request; at any time from `env.now + 600000`
on it fails with 400 `Invalid or expired token` and leaves the store unchanged. -/
theorem reset_round_trip (env : Env) (lib : Crypto) (req : ForgotReq) (s : Store)
    (a : User) (hwf : s.WF) (ha : a ∈ s.users) (he : a.email = req.email)
    (huniq : ∀ v ∈ s.users, v.email = a.email → v = a)
    (hsend : ∀ m : MailMessage, m.to_ = a.email → env.sendMail m = true)
    (hother : ∀ u ∈ s.users, u ≠ a →
      u.resetPasswordToken ≠ some (lib.sha256 (toHex (randomBytes env.entropy 20)))) :
    (forgotPassword env lib req s).error = none ∧
    (∃ m, (forgotPassword env lib req s).mails = [m] ∧
      m.text = resetMessage (req.protocol ++ "://" ++ req.host ++
        "/api/auth/resetpassword/" ++ toHex (randomBytes env.entropy 20))) ∧
    (∀ (env2 : Env) (N : String), env2.now < env.now + 600000 →
      (resetPassword env2 lib ⟨toHex (randomBytes env.entropy 20), N⟩
        (forgotPassword env lib req s).store).error = none ∧
      (resetPassword env2 lib ⟨toHex (randomBytes env.entropy 20), N⟩
        (forgotPassword env lib req s).store).res.statusCode = 200 ∧
      (resetPassword env2 lib ⟨toHex (randomBytes env.entropy 20), N⟩
        (forgotPassword env lib req s).store).store.users =
        s.users.map (fun u => if u = a then
          { _id := a._id, name := a.name, email := a.email, position := a.position,
            password := some (env2.hash N), isVerified := a.isVerified,
            resetPasswordToken := none, resetPasswordExpire := none } else u)) ∧
    (∀ (env2 : Env) (N : String), env.now + 600000 ≤ env2.now →
      resetPassword env2 lib ⟨toHex (randomBytes env.entropy 20), N⟩
          (forgotPassword env lib req s).store
        = fail (forgotPassword env lib req s).store 400 "Invalid or expired token") := by
  have hf : User.findOne s.users req.email = some a := by
    rw [← he]; exact User.findOne_eq_some_of_unique ha huniq
  have hm := hsend
    { from_ := env.emailFromName ++ " <" ++ env.emailFromAddress ++ ">",
      to_ := a.email, subject := "Password Reset Request",
      text := resetMessage (resetUrl req (toHex (randomBytes env.entropy 20))) } rfl
  rw [forgotPassword_of_found env lib req s a hf, if_pos hm]
  have hmem := User.mem_save s hwf.usersNodup a
    { a with resetPasswordToken := some (lib.sha256 (toHex (randomBytes env.entropy 20))), resetPasswordExpire := some (env.now + 600000) } ha rfl
  have hself := User.mem_save_self s a
    { a with resetPasswordToken := some (lib.sha256 (toHex (randomBytes env.entropy 20))), resetPasswordExpire := some (env.now + 600000) } ha rfl
  refine ⟨rfl, ⟨_, rfl, rfl⟩, ?_, ?_⟩
  · intro env2 N hlt
    have hfind : User.findOneByReset (User.save s
          { a with resetPasswordToken := some (lib.sha256 (toHex (randomBytes env.entropy 20))), resetPasswordExpire := some (env.now + 600000) }).users
        (lib.sha256 (toHex (randomBytes env.entropy 20))) env2.now
        = some { a with resetPasswordToken := some (lib.sha256 (toHex (randomBytes env.entropy 20))), resetPasswordExpire := some (env.now + 600000) } := by
      apply find?_eq_some_of_unique _ _ _ hself
      · simp [hlt]
      · intro y hy hp
        rcases hmem y hy with h | ⟨hys, hya⟩
        · exact h
        · have := ((User.resetMatch_iff y _ env2.now).mp hp).1
          exact absurd this (hother y hys hya)
    rw [resetPassword_of_found env2 lib _ _ _ hfind]
    refine ⟨rfl, rfl, ?_⟩
    show (User.save (User.save s _) _).users = _
    rw [User.save_save]
    · exact User.save_users_eq s hwf.usersNodup a _ ha rfl
    · rfl
  · intro env2 N hge
    apply resetPassword_of_none
    rw [User.findOneByReset_eq_none_iff]
    rintro ⟨y, hy, htok, e, hexp, hlt⟩
    rcases hmem y hy with h | ⟨hys, hya⟩
    · rw [h] at hexp
      simp only [Option.some.injEq] at hexp
      omega
    · exact hother y hys hya htok

/-- C23 on a concrete store: Alice asks for a reset at 1000 ms; the dispatched
value is accepted at 600999 ms and refused at 601000 ms. -/
theorem reset_round_trip_witness :
    (resetPassword { envOk with now := 600999 } libOk
      ⟨"0000000000000000000000000000000000000000", "new"⟩
      (forgotPassword envOk libOk reqForgot storePending).store).error = none ∧
    resetPassword { envOk with now := 601000 } libOk
      ⟨"0000000000000000000000000000000000000000", "new"⟩
      (forgotPassword envOk libOk reqForgot storePending).store
      = fail (forgotPassword envOk libOk reqForgot storePending).store 400
          "Invalid or expired token" := by
  have h := reset_round_trip envOk libOk reqForgot storePending
    (alice "HR Personnel" (some "h:secret1") false)
    ⟨by decide, by decide, by decide, by decide⟩ (by decide) rfl (by decide)
    (fun _ _ => rfl) (by decide)
  exact ⟨(h.2.2.1 { envOk with now := 600999 } "new" (by decide)).1,
    h.2.2.2 { envOk with now := 601000 } "new" (by decide)⟩

/-- C24: after `resetPassword` with the value `r` has succeeded in a store where at
most one account holds the digest of `r`, a second `resetPassword` with `r`, at any
time and with any new password, fails with 400 `Invalid or expired token` and
returns the store, the password set by the first reset included, unchanged. -/
theorem reset_token_single_use (env : Env) (lib : Crypto) (r N : String) (s : Store)
    (hwf : s.WF)
    (hdig : ∀ u ∈ s.users, ∀ v ∈ s.users, u.resetPasswordToken = some (lib.sha256 r) →
      v.resetPasswordToken = some (lib.sha256 r) → u = v)
    (hok : (resetPassword env lib ⟨r, N⟩ s).error = none) :
    ∀ (env2 : Env) (N2 : String),
      resetPassword env2 lib ⟨r, N2⟩ (resetPassword env lib ⟨r, N⟩ s).store
        = fail (resetPassword env lib ⟨r, N⟩ s).store 400 "Invalid or expired token" ∧
      (resetPassword env2 lib ⟨r, N2⟩ (resetPassword env lib ⟨r, N⟩ s).store).store
        = (resetPassword env lib ⟨r, N⟩ s).store := by
  intro env2 N2
  cases hf : User.findOneByReset s.users (lib.sha256 r) env.now with
  | none =>
    rw [resetPassword_of_none env lib ⟨r, N⟩ s hf] at hok
    simp [fail] at hok
  | some a =>
    have hs := User.findOneByReset_some hf
    have e1 := resetPassword_of_found env lib ⟨r, N⟩ s a hf
    have hmem := User.mem_save s hwf.usersNodup a
      { a with password := some (env.hash N), resetPasswordToken := none, resetPasswordExpire := none } hs.1 rfl
    have e2 : resetPassword env2 lib ⟨r, N2⟩ (resetPassword env lib ⟨r, N⟩ s).store
        = fail (resetPassword env lib ⟨r, N⟩ s).store 400 "Invalid or expired token" := by
      apply resetPassword_of_none
      rw [User.findOneByReset_eq_none_iff, e1]
      rintro ⟨y, hy, htok, _⟩
      rcases hmem y hy with h | ⟨hys, hya⟩
      · rw [h] at htok
        simp at htok
      · exact hya (hdig y hys a hs.1 htok hs.2.1)
    rw [e2]
    exact ⟨rfl, rfl⟩

/-- C24 on a concrete store: Alice resets with `r1` at 1000 ms, then `r1` is tried
again at the same time. -/
theorem reset_token_single_use_witness :
    resetPassword envOk libOk ⟨"r1", "other"⟩
        (resetPassword envOk libOk ⟨"r1", "new"⟩ (storeOf aliceReset)).store
      = fail (resetPassword envOk libOk ⟨"r1", "new"⟩ (storeOf aliceReset)).store 400
          "Invalid or expired token" :=
  (reset_token_single_use envOk libOk "r1" "new" (storeOf aliceReset)
    ⟨by decide, by decide, by decide, by decide⟩ (by decide) (by decide) envOk "other").1

/-! ## Login scenarios -/

theorem registerUser_then_verify (env : Env) (req : RegisterReq) (s : Store)
    (hwf : s.WF) (hrefs : ∀ t ∈ s.tokens, t.userId < s.nextId)
    (hf : User.findOne s.users req.email = none) :
    verifyUser s.nextId (toHex (randomBytes env.entropy 32)) (registerUser env req s).store =
      { store :=
          { users := s.users ++
              [{ _id := s.nextId, name := req.name, email := req.email,
                 position := "HR Personnel", password := some (env.hash req.password),
                 isVerified := true, resetPasswordToken := none,
                 resetPasswordExpire := none }],
            tokens := s.tokens, nextId := s.nextId + 1 + 1 },
        res := { statusCode := 200, body := some verifyJson } } := by
  rw [registerUser_store env req s hf]
  have hfb : User.findById
      (Token.create env (User.create env s req.name req.email req.password "HR Personnel").2
        s.nextId (toHex (randomBytes env.entropy 32))).2.users s.nextId
      = some (User.create env s req.name req.email req.password "HR Personnel").1 := by
    have hnone : List.find? (fun u => u._id == s.nextId) s.users = none :=
      User.findById_eq_none (fun u hu => Nat.ne_of_lt (hwf.usersLt u hu))
    simp [User.findById, Token.create, User.create, List.find?_append, hnone]
  have hft : Token.findOne
      (Token.create env (User.create env s req.name req.email req.password "HR Personnel").2
        s.nextId (toHex (randomBytes env.entropy 32))).2.tokens
        (User.create env s req.name req.email req.password "HR Personnel").1._id
        (toHex (randomBytes env.entropy 32))
      = some (Token.create env
          (User.create env s req.name req.email req.password "HR Personnel").2
          s.nextId (toHex (randomBytes env.entropy 32))).1 := by
    have hnone : List.find? (fun t => t.userId == s.nextId &&
        t.token == toHex (randomBytes env.entropy 32)) s.tokens = none :=
      Token.findOne_eq_none (fun t ht h => Nat.ne_of_lt (hrefs t ht) h.1)
    simp [Token.findOne, Token.create, User.create, List.find?_append, hnone]
  rw [verifyUser_of_found s.nextId (toHex (randomBytes env.entropy 32)) _ _ _ hfb hft]
  have husers : s.users.map (fun u => if u._id = s.nextId then
      ({ _id := s.nextId, name := req.name, email := req.email, position := "HR Personnel", password := some (env.hash req.password), isVerified := true, resetPasswordToken := none, resetPasswordExpire := none } : User)
      else u) = s.users := by
    conv_rhs => rw [← List.map_id s.users]
    apply List.map_congr_left
    intro u hu
    simp [Nat.ne_of_lt (hwf.usersLt u hu)]
  have htokens : s.tokens.filter (fun x => x._id != s.nextId + 1) = s.tokens := by
    rw [List.filter_eq_self]
    intro t ht
    exact bne_iff_ne.mpr (Nat.ne_of_lt (Nat.lt_succ_of_lt (hwf.tokensLt t ht)))
  simp [Token.deleteOne, User.save, Token.create, User.create, List.filter_append, husers,
    htokens]

/-- C25: with a hasher whose hashes are non-empty and whose check accepts exactly
the registered password, after `registerUser` for a fresh email a login with the
password fails with 401 `Please verify your email before logging in`; after
`verifyUser` with the new account's id and token a login with any other password
fails with 401 `Invalid credentials` and a login with the password succeeds with
status 200, an access token and a refresh token in the body and the `jwt` cookie
holding the refresh token. -/
theorem login_scenario (envR envL : Env) (req : RegisterReq) (s : Store) (hwf : s.WF)
    (hrefs : ∀ t ∈ s.tokens, t.userId < s.nextId)
    (hfresh : ∀ u ∈ s.users, u.email ≠ req.email)
    (hne : envR.hash req.password ≠ "")
    (hver : envL.verify req.password (envR.hash req.password) = true)
    (hwrong : ∀ p, p ≠ req.password → envL.verify p (envR.hash req.password) = false) :
    ∃ (u : User) (t : Token),
      (registerUser envR req s).store.users = s.users ++ [u] ∧
      (registerUser envR req s).store.tokens = s.tokens ++ [t] ∧
      u.email = req.email ∧ t.userId = u._id ∧
      loginUser envL ⟨req.email, req.password⟩ (registerUser envR req s).store
        = fail (registerUser envR req s).store 401
            "Please verify your email before logging in" ∧
      (verifyUser u._id t.token (registerUser envR req s).store).error = none ∧
      (∀ p, p ≠ req.password →
        loginUser envL ⟨req.email, p⟩
            (verifyUser u._id t.token (registerUser envR req s).store).store
          = fail (verifyUser u._id t.token (registerUser envR req s).store).store 401
              "Invalid credentials") ∧
      (loginUser envL ⟨req.email, req.password⟩
        (verifyUser u._id t.token (registerUser envR req s).store).store).error = none ∧
      (loginUser envL ⟨req.email, req.password⟩
        (verifyUser u._id t.token (registerUser envR req s).store).store).res.statusCode
        = 200 ∧
      (loginUser envL ⟨req.email, req.password⟩
        (verifyUser u._id t.token (registerUser envR req s).store).store).res.body = some
        [("success", .atom (.bool true)),
         ("_id", .atom (.str u._id.toHexString)),
         ("name", .atom (.str req.name)),
         ("email", .atom (.str req.email)),
         ("position", .atom (.str "HR Personnel")),
         ("accessToken", .atom (.str (envL.generateToken u._id))),
         ("refreshToken", .atom (.str (envL.generateRefreshToken u._id)))] ∧
      (loginUser envL ⟨req.email, req.password⟩
        (verifyUser u._id t.token (registerUser envR req s).store).store).res.cookies =
        [{ name := "jwt", value := envL.generateRefreshToken u._id,
           options := { httpOnly := true, secure := envL.nodeEnv == some "production",
                        sameSite := some "strict", maxAge := some 604800000 } }] := by
  have hf := User.findOne_eq_none_of_fresh hfresh
  have hv := registerUser_then_verify envR req s hwf hrefs hf
  have hnone : List.find? (fun u => u.email == req.email) s.users = none := hf
  have hs1 := registerUser_store envR req s hf
  refine ⟨(User.create envR s req.name req.email req.password "HR Personnel").1,
    (Token.create envR (User.create envR s req.name req.email req.password "HR Personnel").2
      s.nextId (toHex (randomBytes envR.entropy 32))).1, ?_, ?_, rfl, rfl, ?_, ?_, ?_, ?_⟩
  · rw [hs1]; rfl
  · rw [hs1]; rfl
  · rw [hs1]
    simp [loginUser, User.findOne, Token.create, User.create, List.find?_append, hnone,
      truthy, hne]
  · show (verifyUser s.nextId (toHex (randomBytes envR.entropy 32)) _).error = none
    rw [hv]
  · intro p hp
    show loginUser envL ⟨req.email, p⟩
      (verifyUser s.nextId (toHex (randomBytes envR.entropy 32)) _).store = fail
      (verifyUser s.nextId (toHex (randomBytes envR.entropy 32)) _).store 401 _
    rw [hv]
    simp [loginUser, User.findOne, List.find?_append, hnone, truthy, hne,
      User.matchPassword, hwrong p hp]
  · show (loginUser envL ⟨req.email, req.password⟩
        (verifyUser s.nextId (toHex (randomBytes envR.entropy 32)) _).store).error = none ∧
      (loginUser envL ⟨req.email, req.password⟩
        (verifyUser s.nextId (toHex (randomBytes envR.entropy 32)) _).store).res.statusCode
        = 200 ∧
      (loginUser envL ⟨req.email, req.password⟩
        (verifyUser s.nextId (toHex (randomBytes envR.entropy 32)) _).store).res.body = _ ∧
      (loginUser envL ⟨req.email, req.password⟩
        (verifyUser s.nextId (toHex (randomBytes envR.entropy 32)) _).store).res.cookies = _
    rw [hv]
    simp [loginUser, User.findOne, List.find?_append, hnone, truthy, hne,
      User.matchPassword, hver, loginSuccess, loginJson, User.create]

/-- C25 on a concrete store: Bob registers next to Alice with password `pw`. -/
theorem login_scenario_witness :
    ∃ (u : User) (t : Token),
      u.email = "b@x.com" ∧ t.userId = u._id ∧
      loginUser envOk ⟨"b@x.com", "pw"⟩
          (registerUser envOk reqBob (storeOf (alice "HR Personnel" none true))).store
        = fail (registerUser envOk reqBob (storeOf (alice "HR Personnel" none true))).store
            401 "Please verify your email before logging in" ∧
      (loginUser envOk ⟨"b@x.com", "pw"⟩ (verifyUser u._id t.token
        (registerUser envOk reqBob
          (storeOf (alice "HR Personnel" none true))).store).store).error = none := by
  obtain ⟨u, t, _, _, he, ht, h1, _, _, h4, _⟩ := login_scenario envOk envOk reqBob
    (storeOf (alice "HR Personnel" none true))
    ⟨by decide, by decide, by decide, by decide⟩ (by decide) (by decide) (by decide)
    (by decide) (fun p hp => by
      show ("h:" ++ "pw" == "h:" ++ p) = false
      simp only [beq_eq_false_iff_ne, ne_eq]
      intro h
      have hd := congrArg String.data h
      simp only [String.data_append, List.append_cancel_left_eq] at hd
      exact hp (String.ext hd.symm))
  exact ⟨u, t, he, ht, h1, h4⟩

/-- C26 fails for an unverified account: with a wrong password, registered but
unverified Alice is answered `Please verify your email before logging in`, while an
unregistered email is answered `Invalid credentials`; the two responses differ. -/
theorem loginUser_discloses_unverified :
    alice "HR Personnel" (some "h:secret1") false ∈
      (storeOf (alice "HR Personnel" (some "h:secret1") false)).users ∧
    (alice "HR Personnel" (some "h:secret1") false).matchPassword envOk "wrong" = false ∧
    loginUser envOk ⟨"a@x.com", "wrong"⟩
        (storeOf (alice "HR Personnel" (some "h:secret1") false))
      = fail (storeOf (alice "HR Personnel" (some "h:secret1") false)) 401
          "Please verify your email before logging in" ∧
    loginUser envOk ⟨"nobody@x.com", "wrong"⟩
        (storeOf (alice "HR Personnel" (some "h:secret1") false))
      = fail (storeOf (alice "HR Personnel" (some "h:secret1") false)) 401
          "Invalid credentials" ∧
    (loginUser envOk ⟨"a@x.com", "wrong"⟩
        (storeOf (alice "HR Personnel" (some "h:secret1") false))).error
      ≠ (loginUser envOk ⟨"nobody@x.com", "wrong"⟩
        (storeOf (alice "HR Personnel" (some "h:secret1") false))).error := by
  decide

/-- C26 (amended): for a registered account that is verified and has a stored
password hash, the response of `loginUser` to a wrong password is identical to its
response for an unregistered email (401 `Invalid credentials`); for an account
without a password hash or an unverified one the response is 401 `Authentication
method not supported`, respectively 401 `Please verify your email before logging
in`, and so differs from that of an unregistered email. -/
theorem loginUser_failure_responses (env : Env) (s : Store) (u : User)
    (password email2 password2 : String) (hu : u ∈ s.users)
    (huniq : ∀ v ∈ s.users, v.email = u.email → v = u)
    (hwrong : u.matchPassword env password = false)
    (hun : ∀ v ∈ s.users, v.email ≠ email2) :
    loginUser env ⟨email2, password2⟩ s = fail s 401 "Invalid credentials" ∧
    (truthy u.password = true → u.isVerified = true →
      loginUser env ⟨u.email, password⟩ s = loginUser env ⟨email2, password2⟩ s) ∧
    (truthy u.password = false →
      loginUser env ⟨u.email, password⟩ s
        = fail s 401 "Authentication method not supported") ∧
    (truthy u.password = true → u.isVerified = false →
      loginUser env ⟨u.email, password⟩ s
        = fail s 401 "Please verify your email before logging in") := by
  have h := User.findOne_eq_some_of_unique hu huniq
  have h2 := User.findOne_eq_none_of_fresh hun
  have e2 : loginUser env ⟨email2, password2⟩ s = fail s 401 "Invalid credentials" := by
    simp [loginUser, h2]
  refine ⟨e2, ?_, ?_, ?_⟩
  · intro hp hv
    rw [e2]
    simp [loginUser, h, hp, hv, hwrong]
  · intro hp
    simp [loginUser, h, hp]
  · intro hp hv
    simp [loginUser, h, hp, hv]

/-- C26 (amended) on a concrete store: verified Alice with a wrong password gets
the response of an unregistered email. -/
theorem loginUser_failure_responses_witness :
    loginUser envOk ⟨"a@x.com", "wrong"⟩
        (storeOf (alice "HR Personnel" (some "h:secret1") true))
      = loginUser envOk ⟨"nobody@x.com", "x"⟩
        (storeOf (alice "HR Personnel" (some "h:secret1") true)) :=
  (loginUser_failure_responses envOk (storeOf (alice "HR Personnel" (some "h:secret1") true))
    (alice "HR Personnel" (some "h:secret1") true) "wrong" "nobody@x.com" "x"
    (by decide) (by decide) (by decide) (by decide)).2.1 (by decide) rfl

/-! ## Candidates -/

theorem Candidate.findById_of_mem_nodup {cs : List Candidate}
    (hnd : (cs.map (fun c => c._id)).Nodup) {c : Candidate} (hc : c ∈ cs) :
    Candidate.findById cs c._id = some c := by
  unfold Candidate.findById
  apply find?_eq_some_of_unique _ _ _ hc
  · simp
  · intro y hy hp
    exact List.inj_on_of_nodup_map hnd hy hc (by simpa using hp)

theorem Candidate.save_eq (cs : List Candidate) (hnd : (cs.map (fun c => c._id)).Nodup)
    (c v : Candidate) (hc : c ∈ cs) (hid : v._id = c._id) :
    Candidate.save cs v = cs.map (fun x => if x = c then v else x) := by
  unfold Candidate.save
  apply List.map_congr_left
  intro x hx
  by_cases hxc : x = c
  · simp [hxc, hid]
  · have : x._id ≠ c._id := fun h => hxc (List.inj_on_of_nodup_map hnd hx hc h)
    simp [hxc, hid, this]

theorem Status.toString_ne_empty (st : Status) : st.toString ≠ "" := by
  cases st <;> decide

/-- C27 (what the code does): for an existing candidate `updateCandidateStatus`
responds 200 and replaces only that candidate: a provided status is stored, a
provided date is stored unless it is 0, a provided feedback is stored unless it is
the empty string; a field that is not provided, the date when 0 is provided and the
feedback when the empty string is provided keep their previous value, and every
other field and every other candidate is untouched. For an unknown id it fails with
404 `Candidate not found` and changes nothing. -/
theorem updateCandidateStatus_effect (id : ObjectId) (body : StatusUpdate)
    (cs : List Candidate) (hnd : (cs.map (fun c => c._id)).Nodup) :
    ((∀ c ∈ cs, c._id ≠ id) →
      updateCandidateStatus id body cs =
        { candidates := cs, statusCode := 404, error := some "Candidate not found" }) ∧
    (∀ c ∈ cs, c._id = id →
      ∃ c2 : Candidate,
        updateCandidateStatus id body cs =
          { candidates := cs.map (fun x => if x = c then c2 else x), statusCode := 200,
            message := some "Candidate status updated successfully", data := some c2 } ∧
        (∀ st, body.status = some st → c2.status = st.toString) ∧
        (body.status = none → c2.status = c.status) ∧
        (∀ d, body.interviewDate = some d → d ≠ 0 → c2.interviewDate = some d) ∧
        (body.interviewDate = some 0 → c2.interviewDate = c.interviewDate) ∧
        (body.interviewDate = none → c2.interviewDate = c.interviewDate) ∧
        (∀ f, body.feedback = some f → f ≠ "" → c2.feedback = some f) ∧
        (body.feedback = some "" → c2.feedback = c.feedback) ∧
        (body.feedback = none → c2.feedback = c.feedback) ∧
        c2 = { c with status := c2.status, interviewDate := c2.interviewDate,
                      feedback := c2.feedback }) := by
  constructor
  · intro h
    have hf : Candidate.findById cs id = none := by
      unfold Candidate.findById
      rw [List.find?_eq_none]
      intro c hc
      simpa using h c hc
    simp [updateCandidateStatus, hf]
  · intro c hc hid
    have hf : Candidate.findById cs id = some c := by
      rw [← hid]; exact Candidate.findById_of_mem_nodup hnd hc
    refine ⟨{ c with
        status := if truthy (body.status.map Status.toString)
          then (body.status.map Status.toString).getD c.status
          else c.status,
        interviewDate := if truthyNum body.interviewDate then body.interviewDate
          else c.interviewDate,
        feedback := if truthy body.feedback then body.feedback else c.feedback },
      ?_, ?_, ?_, ?_, ?_, ?_, ?_, ?_, ?_, rfl⟩
    · simp only [updateCandidateStatus, hf]
      rw [Candidate.save_eq cs hnd c]
      · exact hc
      · rfl
    · intro st h; simp [h, truthy, Status.toString_ne_empty]
    · intro h; simp [h, truthy]
    · intro d h hne; simp [h, truthyNum, hne]
    · intro h; simp [h, truthyNum]
    · intro h; simp [h, truthyNum]
    · intro f h hne; simp [h, truthy, hne]
    · intro h; simp [h, truthy]
    · intro h; simp [h, truthy]

/-- C27 at the failing inputs: a body that provides the empty string as feedback
answers 200 and leaves the stored feedback `Good` in place, and a body that
provides the date 0 leaves the stored interview date 5000 in place. -/
theorem updateCandidateStatus_effect_witness :
    (∃ c2 : Candidate,
      updateCandidateStatus 1 ⟨none, none, some ""⟩ [john 1 "Applied" none (some "Good")] =
        { candidates := [john 1 "Applied" none (some "Good")].map
            (fun x => if x = john 1 "Applied" none (some "Good") then c2 else x),
          statusCode := 200, message := some "Candidate status updated successfully",
          data := some c2 } ∧
      c2.feedback = some "Good") ∧
    (∃ c2 : Candidate,
      updateCandidateStatus 1 ⟨none, some 0, none⟩ [john 1 "Applied" (some 5000) none] =
        { candidates := [john 1 "Applied" (some 5000) none].map
            (fun x => if x = john 1 "Applied" (some 5000) none then c2 else x),
          statusCode := 200, message := some "Candidate status updated successfully",
          data := some c2 } ∧
      c2.interviewDate = some 5000) := by
  obtain ⟨c2, he, _, _, _, _, _, _, hempty, _, _⟩ :=
    (updateCandidateStatus_effect 1 ⟨none, none, some ""⟩
      [john 1 "Applied" none (some "Good")] (by decide)).2
      (john 1 "Applied" none (some "Good")) (by decide) rfl
  obtain ⟨c3, he3, _, _, _, hzero, _⟩ :=
    (updateCandidateStatus_effect 1 ⟨none, some 0, none⟩
      [john 1 "Applied" (some 5000) none] (by decide)).2
      (john 1 "Applied" (some 5000) none) (by decide) rfl
  exact ⟨⟨c2, he, hempty rfl⟩, ⟨c3, he3, hzero rfl⟩⟩

/-- C28: `generateAttentionCards` returns exactly the three cards `Pending
Reviews`, `Upcoming Interviews`, `Onboarding Tasks`, in this order, counting the
candidates with status `Applied`, those with an interview date `d` such that `now <
d` and `d ≤ now + 604800000`, and those with status `Hired`; the priority of a card
is `none` exactly when its count is 0, and otherwise `high`, `medium`, `low`
respectively. -/
theorem generateAttentionCards_spec (now : Nat) (cs : List Candidate) :
    ∃ c1 c2 c3 : AttentionCard,
      generateAttentionCards now cs = [c1, c2, c3] ∧
      c1.title = "Pending Reviews" ∧ c2.title = "Upcoming Interviews" ∧
      c3.title = "Onboarding Tasks" ∧
      c1.count = cs.countP (fun c => decide (c.status = "Applied")) ∧
      c2.count = cs.countP (fun c =>
        c.interviewDate.any (fun d => decide (now < d ∧ d ≤ now + 604800000))) ∧
      c3.count = cs.countP (fun c => decide (c.status = "Hired")) ∧
      (c1.priority = "none" ↔ c1.count = 0) ∧ (c1.count ≠ 0 → c1.priority = "high") ∧
      (c2.priority = "none" ↔ c2.count = 0) ∧ (c2.count ≠ 0 → c2.priority = "medium") ∧
      (c3.priority = "none" ↔ c3.count = 0) ∧ (c3.count ≠ 0 → c3.priority = "low") := by
  have hprio : ∀ (n : Nat) (p : String), p ≠ "none" →
      (((if n > 0 then p else "none") = "none" ↔ n = 0) ∧
        (n ≠ 0 → (if n > 0 then p else "none") = p)) := by
    intro n p hp
    by_cases hn : n = 0
    · simp [hn]
    · have : n > 0 := Nat.pos_of_ne_zero hn
      simp [hn, this, hp]
  refine ⟨_, _, _, rfl, rfl, rfl, rfl, ?_, ?_, ?_,
    (hprio _ "high" (by decide)).1, (hprio _ "high" (by decide)).2,
    (hprio _ "medium" (by decide)).1, (hprio _ "medium" (by decide)).2,
    (hprio _ "low" (by decide)).1, (hprio _ "low" (by decide)).2⟩
  · show (cs.filter _).length = _
    rw [List.countP_eq_length_filter]
    rfl
  · show (cs.filter _).length = _
    rw [List.countP_eq_length_filter]
    congr 2
    funext c
    cases c.interviewDate <;> simp
  · show (cs.filter _).length = _
    rw [List.countP_eq_length_filter]
    rfl

/-- C28 on a concrete list at time 1000 ms: one applied candidate, one interview
inside the window (the one exactly at `now` and the one past seven days are not
counted), no hire. -/
theorem generateAttentionCards_example :
    generateAttentionCards 1000
      [john 1 "Applied" none none, john 2 "Interviewing" (some 1000) none,
       john 3 "Interviewing" (some 604801000) none,
       john 4 "Offered" (some 604801001) none] =
      [{ title := "Pending Reviews", count := 1,
         description := "Candidates awaiting initial review", priority := "high" },
       { title := "Upcoming Interviews", count := 1,
         description := "Interviews scheduled within the next 7 days",
         priority := "medium" },
       { title := "Onboarding Tasks", count := 0,
         description := "New hires to be onboarded", priority := "none" }] := by
  obtain ⟨c1, c2, c3, h, _⟩ := generateAttentionCards_spec 1000
    [john 1 "Applied" none none, john 2 "Interviewing" (some 1000) none,
     john 3 "Interviewing" (some 604801000) none,
     john 4 "Offered" (some 604801001) none]
  decide

/-! ## Positions along runs -/

theorem registerUser_position (env : Env) (req : RegisterReq) (s : Store)
    (h : ∀ u ∈ s.users, u.position = "HR Personnel") :
    ∀ u ∈ (registerUser env req s).store.users, u.position = "HR Personnel" := by
  cases hf : User.findOne s.users req.email with
  | some v =>
    rw [registerUser_of_mem env req s
      ⟨v, List.mem_of_find?_eq_some hf, by simpa using List.find?_some hf⟩]
    exact h
  | none =>
    rw [registerUser_store env req s hf]
    intro u hu
    simp only [Token.create, User.create, List.mem_append, List.mem_singleton] at hu
    rcases hu with hu | hu
    · exact h u hu
    · rw [hu]

theorem verifyUser_position (userId : ObjectId) (token : String) (s : Store)
    (h : ∀ u ∈ s.users, u.position = "HR Personnel") :
    ∀ u ∈ (verifyUser userId token s).store.users, u.position = "HR Personnel" := by
  cases hu : User.findById s.users userId with
  | none =>
    have e : verifyUser userId token s = fail s 400 "Invalid link" := by
      simp [verifyUser, hu]
    rw [e]; exact h
  | some user =>
    cases ht : Token.findOne s.tokens user._id token with
    | none =>
      have e : verifyUser userId token s = fail s 400 "Invalid or expired link" := by
        simp [verifyUser, hu, ht]
      rw [e]; exact h
    | some tokenDoc =>
      have hmem : user ∈ s.users := List.mem_of_find?_eq_some hu
      rw [verifyUser_of_found userId token s user tokenDoc hu ht]
      exact User.save_forall (fun u => u.position = "HR Personnel") s _ h (h user hmem)

theorem forgotPassword_position (env : Env) (lib : Crypto) (req : ForgotReq) (s : Store)
    (h : ∀ u ∈ s.users, u.position = "HR Personnel") :
    ∀ u ∈ (forgotPassword env lib req s).store.users, u.position = "HR Personnel" := by
  cases hf : User.findOne s.users req.email with
  | none =>
    have e : forgotPassword env lib req s = fail s 404 "User not found" := by
      simp [forgotPassword, hf]
    rw [e]; exact h
  | some a =>
    have hmem : a ∈ s.users := List.mem_of_find?_eq_some hf
    rw [forgotPassword_of_found env lib req s a hf]
    split_ifs
    · exact User.save_forall (fun u => u.position = "HR Personnel") s _ h (h a hmem)
    · exact User.save_forall (fun u => u.position = "HR Personnel") s _ h (h a hmem)

theorem resetPassword_position (env : Env) (lib : Crypto) (req : ResetReq) (s : Store)
    (h : ∀ u ∈ s.users, u.position = "HR Personnel") :
    ∀ u ∈ (resetPassword env lib req s).store.users, u.position = "HR Personnel" := by
  cases hf : User.findOneByReset s.users (lib.sha256 req.resettoken) env.now with
  | none =>
    rw [resetPassword_of_none env lib req s hf]; exact h
  | some a =>
    rw [resetPassword_of_found env lib req s a hf]
    exact User.save_forall (fun u => u.position = "HR Personnel") s _ h
      (h a (User.findOneByReset_some hf).1)

theorem Op.step_position (op : Op) (s : Store)
    (h : ∀ u ∈ s.users, u.position = "HR Personnel") :
    ∀ u ∈ (op.step s).users, u.position = "HR Personnel" := by
  cases op with
  | register env req => exact registerUser_position env req s h
  | verify userId token => exact verifyUser_position userId token s h
  | login env body => simpa [Op.step, loginUser_store] using h
  | loginCandidate env body => simpa [Op.step, loginCandidate_store] using h
  | logout => exact h
  | refresh env lib req => simpa [Op.step, refreshToken_store] using h
  | forgotPassword env lib req => exact forgotPassword_position env lib req s h
  | resetPassword env lib req => exact resetPassword_position env lib req s h
  | sweep now => exact h

theorem run_position (ops : List Op) (s : Store)
    (h : ∀ u ∈ s.users, u.position = "HR Personnel") :
    ∀ u ∈ (run ops s).users, u.position = "HR Personnel" := by
  induction ops generalizing s with
  | nil => exact h
  | cons op ops ih => exact ih (op.step s) (Op.step_position op s h)

/-- C29: in every store reached from a store without accounts by a sequence of
operations, every account has position `HR Personnel`, and `loginCandidate` never
succeeds there: for every email and password it throws with status 401 or 403,
sends no body and sets no cookie, so no token is issued. -/
theorem loginCandidate_never_succeeds (s : Store) (ops : List Op) (hs : s.users = []) :
    (∀ u ∈ (run ops s).users, u.position = "HR Personnel") ∧
    ∀ (env : Env) (body : LoginBody),
      ((loginCandidate env body (run ops s)).res.statusCode = 401 ∨
        (loginCandidate env body (run ops s)).res.statusCode = 403) ∧
      (loginCandidate env body (run ops s)).error ≠ none ∧
      (loginCandidate env body (run ops s)).res.body = none ∧
      (loginCandidate env body (run ops s)).res.cookies = [] := by
  have hpos := run_position ops s (by rw [hs]; intro u hu; cases hu)
  refine ⟨hpos, ?_⟩
  intro env body
  cases hf : User.findOne (run ops s).users body.email with
  | none => simp [loginCandidate, hf, fail]
  | some u =>
    have hp := hpos u (List.mem_of_find?_eq_some hf)
    simp [loginCandidate, hf, hp, fail]

/-- C29 on a concrete run from the empty store: Bob registers and verifies, then
tries the candidate login with his password. -/
theorem loginCandidate_never_succeeds_witness :
    (loginCandidate envOk ⟨"b@x.com", "pw"⟩
      (run [.register envOk reqBob,
            .verify 0 "0000000000000000000000000000000000000000000000000000000000000000"]
        emptyStore)).res.statusCode = 403 ∧
    (loginCandidate envOk ⟨"b@x.com", "pw"⟩
      (run [.register envOk reqBob,
            .verify 0 "0000000000000000000000000000000000000000000000000000000000000000"]
        emptyStore)).error ≠ none := by
  have h := (loginCandidate_never_succeeds emptyStore
    [.register envOk reqBob,
     .verify 0 "0000000000000000000000000000000000000000000000000000000000000000"] rfl).2
    envOk ⟨"b@x.com", "pw"⟩
  exact ⟨by decide, h.2.1⟩

/-! ## Successive reset requests -/

theorem User.findOne_save_self (s : Store) (hnd : (s.users.map (fun u => u._id)).Nodup)
    (a v : User) (ha : a ∈ s.users) (huniq : ∀ w ∈ s.users, w.email = a.email → w = a)
    (hid : v._id = a._id) (hem : v.email = a.email) :
    User.findOne (User.save s v).users a.email = some v := by
  unfold User.findOne
  apply find?_eq_some_of_unique _ _ _ (User.mem_save_self s a v ha hid)
  · simp [hem]
  · intro y hy hp
    rcases User.mem_save s hnd a v ha hid y hy with h | ⟨hys, hya⟩
    · exact h
    · exact absurd (huniq y hys (by simpa using hp)) hya

/-- C30: after a delivered `forgotPassword` for account `a` that drew `r1`, a
second `forgotPassword` for `a` overwrites the stored digest and expiry. When the
second request is delivered and drew `r2` with another digest, `resetPassword` with
`r1` fails with 400 `Invalid or expired token` at any time, while `r2` is accepted
until its expiry; when the second request's dispatch fails, both fields are
cleared and `r1` is refused as well. No other account holds either digest. -/
theorem latest_reset_token_only (env1 env2 : Env) (lib : Crypto) (req : ForgotReq)
    (s : Store) (a : User) (hwf : s.WF) (ha : a ∈ s.users) (he : a.email = req.email)
    (huniq : ∀ v ∈ s.users, v.email = a.email → v = a)
    (hsend1 : ∀ m : MailMessage, m.to_ = a.email → env1.sendMail m = true)
    (hdist : toHex (randomBytes env1.entropy 20) ≠ toHex (randomBytes env2.entropy 20))
    (hinj : lib.sha256 (toHex (randomBytes env1.entropy 20)) =
      lib.sha256 (toHex (randomBytes env2.entropy 20)) →
      toHex (randomBytes env1.entropy 20) = toHex (randomBytes env2.entropy 20))
    (hother : ∀ u ∈ s.users, u ≠ a →
      u.resetPasswordToken ≠ some (lib.sha256 (toHex (randomBytes env1.entropy 20))) ∧
      u.resetPasswordToken ≠ some (lib.sha256 (toHex (randomBytes env2.entropy 20)))) :
    ((∀ m : MailMessage, m.to_ = a.email → env2.sendMail m = true) →
      (forgotPassword env2 lib req (forgotPassword env1 lib req s).store).error = none ∧
      ∀ (env3 : Env) (N : String),
        resetPassword env3 lib ⟨toHex (randomBytes env1.entropy 20), N⟩
            (forgotPassword env2 lib req (forgotPassword env1 lib req s).store).store
          = fail (forgotPassword env2 lib req (forgotPassword env1 lib req s).store).store
              400 "Invalid or expired token" ∧
        (env3.now < env2.now + 600000 →
          (resetPassword env3 lib ⟨toHex (randomBytes env2.entropy 20), N⟩
            (forgotPassword env2 lib req (forgotPassword env1 lib req s).store).store).error
            = none)) ∧
    ((∀ m : MailMessage, m.to_ = a.email → env2.sendMail m = false) →
      (forgotPassword env2 lib req (forgotPassword env1 lib req s).store).error
        = some "Email could not be sent" ∧
      ∀ (env3 : Env) (N : String),
        resetPassword env3 lib ⟨toHex (randomBytes env1.entropy 20), N⟩
            (forgotPassword env2 lib req (forgotPassword env1 lib req s).store).store
          = fail (forgotPassword env2 lib req (forgotPassword env1 lib req s).store).store
              400 "Invalid or expired token") := by
  have hf : User.findOne s.users req.email = some a := by
    rw [← he]; exact User.findOne_eq_some_of_unique ha huniq
  have hm1 := hsend1
    { from_ := env1.emailFromName ++ " <" ++ env1.emailFromAddress ++ ">",
      to_ := a.email, subject := "Password Reset Request",
      text := resetMessage (resetUrl req (toHex (randomBytes env1.entropy 20))) } rfl
  have hs1 : (forgotPassword env1 lib req s).store = User.save s
      { a with resetPasswordToken := some (lib.sha256 (toHex (randomBytes env1.entropy 20))), resetPasswordExpire := some (env1.now + 600000) } := by
    rw [forgotPassword_of_found env1 lib req s a hf, if_pos hm1]
  have hf1 : User.findOne (forgotPassword env1 lib req s).store.users req.email = some
      { a with resetPasswordToken := some (lib.sha256 (toHex (randomBytes env1.entropy 20))), resetPasswordExpire := some (env1.now + 600000) } := by
    rw [hs1, ← he]
    exact User.findOne_save_self s hwf.usersNodup a _ ha huniq rfl rfl
  have h2 := forgotPassword_of_found env2 lib req (forgotPassword env1 lib req s).store _ hf1
  constructor
  · intro hsend2
    have hm2 := hsend2
      { from_ := env2.emailFromName ++ " <" ++ env2.emailFromAddress ++ ">",
        to_ := a.email, subject := "Password Reset Request",
        text := resetMessage (resetUrl req (toHex (randomBytes env2.entropy 20))) } rfl
    rw [h2, if_pos hm2, hs1]
    refine ⟨rfl, ?_⟩
    intro env3 N
    show resetPassword env3 lib _ (User.save (User.save s _) _) =
        fail (User.save (User.save s _) _) 400 _ ∧
      (_ → (resetPassword env3 lib _ (User.save (User.save s _) _)).error = none)
    rw [User.save_save]
    · have hmem := User.mem_save s hwf.usersNodup a
        { a with resetPasswordToken := some (lib.sha256 (toHex (randomBytes env2.entropy 20))), resetPasswordExpire := some (env2.now + 600000) } ha rfl
      have hself := User.mem_save_self s a
        { a with resetPasswordToken := some (lib.sha256 (toHex (randomBytes env2.entropy 20))), resetPasswordExpire := some (env2.now + 600000) } ha rfl
      constructor
      · apply resetPassword_of_none
        rw [User.findOneByReset_eq_none_iff]
        rintro ⟨y, hy, htok, _⟩
        rcases hmem y hy with h | ⟨hys, hya⟩
        · rw [h] at htok
          simp only [Option.some.injEq] at htok
          exact hdist (hinj htok.symm)
        · exact (hother y hys hya).1 htok
      · intro hlt
        have hfind : User.findOneByReset (User.save s
              { a with resetPasswordToken := some (lib.sha256 (toHex (randomBytes env2.entropy 20))), resetPasswordExpire := some (env2.now + 600000) }).users
            (lib.sha256 (toHex (randomBytes env2.entropy 20))) env3.now
            = some { a with resetPasswordToken := some (lib.sha256 (toHex (randomBytes env2.entropy 20))), resetPasswordExpire := some (env2.now + 600000) } := by
          apply find?_eq_some_of_unique _ _ _ hself
          · simp [hlt]
          · intro y hy hp
            rcases hmem y hy with h | ⟨hys, hya⟩
            · exact h
            · have := ((User.resetMatch_iff y _ env3.now).mp hp).1
              exact absurd this (hother y hys hya).2
        rw [resetPassword_of_found env3 lib _ _ _ hfind]
    · rfl
  · intro hsend2
    have hm2 := hsend2
      { from_ := env2.emailFromName ++ " <" ++ env2.emailFromAddress ++ ">",
        to_ := a.email, subject := "Password Reset Request",
        text := resetMessage (resetUrl req (toHex (randomBytes env2.entropy 20))) } rfl
    rw [h2, if_neg (by simp [hm2]), hs1]
    refine ⟨rfl, ?_⟩
    intro env3 N
    show resetPassword env3 lib _ (User.save (User.save s _) _) =
        fail (User.save (User.save s _) _) 400 _
    rw [User.save_save]
    · have hmem := User.mem_save s hwf.usersNodup a
        { a with resetPasswordToken := none, resetPasswordExpire := none } ha rfl
      apply resetPassword_of_none
      rw [User.findOneByReset_eq_none_iff]
      rintro ⟨y, hy, htok, _⟩
      rcases hmem y hy with h | ⟨hys, hya⟩
      · rw [h] at htok
        simp at htok
      · exact (hother y hys hya).1 htok
    · rfl

/-- C30 on a concrete store: Alice asks twice, at 1000 ms (value of zero bytes) and
at 2000 ms (value of bytes 1). Afterwards the first value is refused and the
second accepted; had the second dispatch failed, the first value is refused too. -/
theorem latest_reset_token_only_witness :
    resetPassword envLater libOk ⟨"0000000000000000000000000000000000000000", "new"⟩
        (forgotPassword envLater libOk reqForgot
          (forgotPassword envOk libOk reqForgot storePending).store).store
      = fail (forgotPassword envLater libOk reqForgot
          (forgotPassword envOk libOk reqForgot storePending).store).store 400
          "Invalid or expired token" ∧
    (resetPassword envLater libOk ⟨"0101010101010101010101010101010101010101", "new"⟩
        (forgotPassword envLater libOk reqForgot
          (forgotPassword envOk libOk reqForgot storePending).store).store).error = none ∧
    resetPassword envLater libOk ⟨"0000000000000000000000000000000000000000", "new"⟩
        (forgotPassword envLaterDown libOk reqForgot
          (forgotPassword envOk libOk reqForgot storePending).store).store
      = fail (forgotPassword envLaterDown libOk reqForgot
          (forgotPassword envOk libOk reqForgot storePending).store).store 400
          "Invalid or expired token" := by
  have h := latest_reset_token_only envOk envLater libOk reqForgot storePending
    (alice "HR Personnel" (some "h:secret1") false)
    ⟨by decide, by decide, by decide, by decide⟩ (by decide) rfl (by decide)
    (fun _ _ => rfl) (by decide) (fun h => absurd h (by decide)) (by decide)
  have hd := latest_reset_token_only envOk envLaterDown libOk reqForgot storePending
    (alice "HR Personnel" (some "h:secret1") false)
    ⟨by decide, by decide, by decide, by decide⟩ (by decide) rfl (by decide)
    (fun _ _ => rfl) (by decide) (fun h => absurd h (by decide)) (by decide)
  exact ⟨((h.1 (fun _ _ => rfl)).2 envLater "new").1,
    ((h.1 (fun _ _ => rfl)).2 envLater "new").2 (by decide),
    (hd.2 (fun _ _ => rfl)).2 envLater "new"⟩

end HrBackend
